import Mathlib

/-! Credential authentication and token issuance (lectures Apr 5 / Apr 11)

The file embeds, part by part, the lecture code the verified claims are about:
the authentication flow (this part), the random generators and seeds of lecture
Mar 30, the clear-db seed of lecture Apr 5, the Express apps of lectures Mar 9
and Mar 21, the seeds of lecture Apr 25 and `applyFunctionToArray` of lecture
Feb 23.  All definitions come first, the lemmas and theorems after them.

This part is a shallow embedding of

* `lectures/Apr 5/models/users.js`    (`findUserByEmail`, `authenticateUser`),
* `lectures/Apr 5/models/students.js` (`findUserByEmail`),
* `lectures/Apr 11/controllers/users.js` (`authenticateStudent`),
* `lectures/Apr 11/migrations/*_add_students_table.js` (the students columns).

The controller requires `../models/users` and `../models/students`; the model
files embedded here are those of the Apr 5 lecture, which the later lecture
folders carry forward.

The libraries the code calls (knex, bcrypt, jsonwebtoken, console) are not part
of the repository; they are a parameter `World` of the model.  Every call to
one of them is recorded, in program order, in the trace of the run, and a call
that throws (a rejected promise under `await`) ends the run with that error,
since neither source file contains a `try`/`catch`.
-/

namespace Auth

/-! ## JavaScript values and objects -/

/-- The JavaScript values that occur in database rows and in the token payload. -/
inductive JSVal where
  | undefined
  | null
  | num (n : Int)
  | str (s : String)
  | arr (xs : List String)
  deriving DecidableEq, Repr

/-- A plain object: its own enumerable properties in insertion order. -/
abbrev Row := List (String × JSVal)

/-- Property read `o.k`; a missing property reads as `undefined`. -/
def Row.get (o : Row) (k : String) : JSVal :=
  match o with
  | [] => JSVal.undefined
  | (k1, v) :: rest => if k1 = k then v else Row.get rest k

/-- The test `k in o` for own properties. -/
def Row.has (o : Row) (k : String) : Bool :=
  match o with
  | [] => false
  | (k1, _) :: rest => if k1 = k then true else Row.has rest k

/-- The own property names of an object. -/
def Row.keys (o : Row) : List String := o.map Prod.fst

/-- The own property values of an object. -/
def Row.values (o : Row) : List JSVal := o.map Prod.snd

/-- Property write `o.k = v` (also a `k: v` entry of an object literal): an
existing property keeps its position and takes the new value, a new property
is added last. -/
def Row.set (o : Row) (k : String) (v : JSVal) : Row :=
  if Row.has o k then o.map (fun p => if p.1 = k then (k, v) else p)
  else o ++ [(k, v)]

/-- The statement `delete o.k`. -/
def Row.delete (o : Row) (k : String) : Row :=
  o.filter (fun p => decide (p.1 ≠ k))

/-- The spread `...x` inside an object literal, for `x = xs[0]`: the
properties of the object, or nothing when `xs[0]` is `undefined`. -/
def spread (x : Option Row) : Row :=
  match x with
  | none => []
  | some o => o

/-! ## Effects -/

/-- A thrown JavaScript error (or the reason of a rejected promise). -/
structure JSError where
  message : String
  deriving DecidableEq, Repr

/-- The calls the code makes to its libraries, with their arguments. -/
inductive Event where
  /-- The awaited query `knex(table).where({ email })`. -/
  | knexWhere (table : String) (email : String)
  /-- The call `console.log(label, rows)`. -/
  | consoleLog (label : String) (rows : List Row)
  /-- The call `console.error(msg)`. -/
  | consoleError (msg : String)
  /-- The call `bcrypt.compare(data, hash)`. -/
  | bcryptCompare (data : String) (hash : JSVal)
  /-- The call `jwt.sign(payload, secret, options)`; `options` is `none` when the
  call has only two arguments. -/
  | jwtSign (payload : Row) (secret : String) (options : Option Row)
  deriving DecidableEq, Repr

/-- The libraries and the database behind them: what each call answers.  A
call answers with a value or throws. -/
structure World where
  /-- The rows `knex(table).where({ email })` resolves to. -/
  knexWhere : String → String → Except JSError (List Row)
  /-- What `bcrypt.compare(data, hash)` resolves to. -/
  bcryptCompare : String → JSVal → Except JSError Bool
  /-- What `jwt.sign(payload, secret, options)` returns. -/
  jwtSign : Row → String → Option Row → Except JSError String

/-- A finished run of an async function: the library calls it made, in order,
and how it ended (`ok v`: the promise resolved to `v`; `error e`: it rejected
with `e`). -/
structure Run (α : Type) where
  trace : List Event
  outcome : Except JSError α

/-- A run that makes no call and returns `a`. -/
def Run.ret {α : Type} (a : α) : Run α := ⟨[], Except.ok a⟩

/-- Sequencing: the second part runs only when the first did not throw. -/
def Run.andThen {α β : Type} (m : Run α) (f : α → Run β) : Run β :=
  match m.outcome with
  | Except.error e => ⟨m.trace, Except.error e⟩
  | Except.ok a => ⟨m.trace ++ (f a).trace, (f a).outcome⟩

instance : Monad Run where
  pure := Run.ret
  bind := Run.andThen

/-- One library call: it is recorded and answers as the world says. -/
def perform {α : Type} (ev : Event) (answer : Except JSError α) : Run α :=
  ⟨[ev], answer⟩

/-- The call `console.log(label, rows)`. -/
def consoleLog (label : String) (rows : List Row) : Run Unit :=
  perform (Event.consoleLog label rows) (Except.ok ())

/-- The call `console.error(msg)`. -/
def consoleError (msg : String) : Run Unit :=
  perform (Event.consoleError msg) (Except.ok ())

/-! ## `models/users.js` -/

/-- The constant `USER_TABLE`. -/
def USER_TABLE : String := "users"

/-- The function `findUserByEmail` of `models/users.js`. -/
def User.findUserByEmail (w : World) (email : String) : Run (List Row) :=
  perform (Event.knexWhere USER_TABLE email) (w.knexWhere USER_TABLE email)

/-- The function `authenticateUser` of `models/users.js`; `none` is the
JavaScript `null`. -/
def User.authenticateUser (w : World) (email password : String) : Run (Option Row) := do
  let users ← User.findUserByEmail w email
  consoleLog "Results of users query" users
  match users with
  | [] => do
    consoleError ("No users matched the email: " ++ email)
    pure none
  | user :: _ => do
    let validPassword ← perform (Event.bcryptCompare password (Row.get user "password"))
      (w.bcryptCompare password (Row.get user "password"))
    if validPassword then
      pure (some (Row.delete user "password"))
    else
      pure none

/-! ## `models/students.js` -/

/-- The constant `STUDENTS_TABLE`. -/
def STUDENTS_TABLE : String := "students"

/-- The function `findUserByEmail` of `models/students.js`. -/
def Student.findUserByEmail (w : World) (email : String) : Run (List Row) :=
  perform (Event.knexWhere STUDENTS_TABLE email) (w.knexWhere STUDENTS_TABLE email)

/-! ## `controllers/users.js` -/

/-- The constant `accessTokenSecret`. -/
def accessTokenSecret : String := "mysupercoolsecret"

/-- The object literal `{ ...students[0], claims: ['student'] }`. -/
def claimsPayload (students : List Row) : Row :=
  Row.set (spread students.head?) "claims" (JSVal.arr ["student"])

/-- The function `authenticateStudent` of `controllers/users.js`; `none` is the
JavaScript `null`, `some t` the access token `t`. -/
def authenticateStudent (w : World) (email password : String) : Run (Option String) := do
  let user ← User.authenticateUser w email password
  match user with
  | none => pure none
  | some _ => do
    let students ← Student.findUserByEmail w email
    consoleLog "Students" students
    let accessToken ← perform (Event.jwtSign (claimsPayload students) accessTokenSecret none)
      (w.jwtSign (claimsPayload students) accessTokenSecret none)
    pure (some accessToken)

/-! ## The students table (migration `add_students_table`) -/

/-- The columns `up` creates on the `students` table, in order. -/
def studentsColumns : List String := ["id", "email", "name"]

/-- A row of the `students` table: its properties are columns of the table. -/
def IsStudentRow (r : Row) : Prop := ∀ k ∈ Row.keys r, k ∈ studentsColumns

/-! ## Example stores

Concrete worlds for evaluating the code: two tables, a toy hash and a toy
signer.  They play the part of a test fixture. -/

/-- A toy password hash, used by the example worlds only. -/
def toyHash (password : String) : String := "hash:" ++ password

/-- An example world over a users table and a students table: a query answers
with the rows whose `email` column is the requested one, the comparison checks
the toy hash, and the signer spells out the keys it was given. -/
def tableWorld (users students : List Row) : World where
  knexWhere := fun table email =>
    if table = USER_TABLE then
      Except.ok (users.filter (fun r => decide (Row.get r "email" = JSVal.str email)))
    else if table = STUDENTS_TABLE then
      Except.ok (students.filter (fun r => decide (Row.get r "email" = JSVal.str email)))
    else Except.error ⟨"no such table"⟩
  bcryptCompare := fun data hash => Except.ok (decide (hash = JSVal.str (toyHash data)))
  jwtSign := fun payload secret _ =>
    Except.ok ("jwt[" ++ String.intercalate "," (Row.keys payload) ++ "]" ++ secret)

/-- An example credential record: password `pw`. -/
def annUser : Row :=
  [("email", JSVal.str "ann@smu.edu"), ("password", JSVal.str "hash:pw")]

/-- An example profile record. -/
def annStudent : Row :=
  [("id", JSVal.num 7), ("email", JSVal.str "ann@smu.edu"), ("name", JSVal.str "Ann")]

/-- An example profile record whose `name` is the text of the stored hash of
`annUser`. -/
def hashNamedStudent : Row :=
  [("id", JSVal.num 8), ("email", JSVal.str "ann@smu.edu"), ("name", JSVal.str "hash:pw")]

/-- An example profile record with a property beyond the three columns. -/
def ssnStudent : Row :=
  [("id", JSVal.num 9), ("email", JSVal.str "ann@smu.edu"), ("name", JSVal.str "Ann"),
   ("ssn", JSVal.str "078-05-1120")]

/-- A string that is longer than every string of the list, hence not in it. -/
def freshKey (keys : List String) : String :=
  String.mk (List.replicate ((keys.map String.length).sum + 1) 'x')

/-- An example world whose profile lookup answers with one record that has the
single property `k`; the credential check succeeds for every input. -/
def extraFieldWorld (k : String) : World where
  knexWhere := fun table _ =>
    if table = USER_TABLE then Except.ok [annUser] else Except.ok [[(k, JSVal.num 0)]]
  bcryptCompare := fun _ _ => Except.ok true
  jwtSign := fun _ _ _ => Except.ok "token"

/-- An example world whose database cannot be reached: every query rejects. -/
def downWorld : World where
  knexWhere := fun _ _ => Except.error ⟨"connect ECONNREFUSED"⟩
  bcryptCompare := fun _ _ => Except.ok false
  jwtSign := fun _ _ _ => Except.ok "token"

/-! ## Steps of the flow -/

/-- The four steps of the authentication flow. -/
inductive Step where
  | credentialLookup
  | passwordVerify
  | profileLookup
  | sign
  deriving DecidableEq, Repr

/-- The step a library call belongs to: a query on the users table is the
credential lookup, one on the students table the profile lookup; console output
is no step. -/
def stepOf (ev : Event) : Option Step :=
  match ev with
  | Event.knexWhere table _ =>
    if table = USER_TABLE then some Step.credentialLookup
    else if table = STUDENTS_TABLE then some Step.profileLookup
    else none
  | Event.bcryptCompare _ _ => some Step.passwordVerify
  | Event.jwtSign _ _ _ => some Step.sign
  | Event.consoleLog _ _ => none
  | Event.consoleError _ => none

/-- The steps of a run, in order. -/
def steps (trace : List Event) : List Step := trace.filterMap stepOf

/-! ## The runs of the two functions, case by case -/

/-- The calls `authenticateUser` makes up to and including the comparison. -/
def userTrace (email password : String) (user : Row) (rest : List Row) : List Event :=
  [Event.knexWhere USER_TABLE email,
   Event.consoleLog "Results of users query" (user :: rest),
   Event.bcryptCompare password (Row.get user "password")]

/-- The calls `authenticateUser` makes when the lookup is empty. -/
def noUserTrace (email : String) : List Event :=
  [Event.knexWhere USER_TABLE email,
   Event.consoleLog "Results of users query" [],
   Event.consoleError ("No users matched the email: " ++ email)]

/-- The calls `authenticateStudent` makes after `authenticateUser` returned a user. -/
def studentTrace (email : String) (students : List Row) : List Event :=
  [Event.knexWhere STUDENTS_TABLE email,
   Event.consoleLog "Students" students,
   Event.jwtSign (claimsPayload students) accessTokenSecret none]

/-! ## Interleaved calls

An `async` function runs until its next `await` and is resumed later; between
two resumptions other calls may run.  A call of `authenticateStudent` is thus a
small machine with one state for each `await` it can be suspended at.  (The
returns through `await User.authenticateUser(..)` and
`await Student.findUserByEmail(..)` carry no code of their own and are part of
the step that produces the value.) -/

/-- The module-level bindings of `controllers/users.js`, `models/users.js` and
`models/students.js` that the calls read.  All are declared `const`. -/
structure ModuleState where
  accessTokenSecret : String
  USER_TABLE : String
  STUDENTS_TABLE : String
  deriving DecidableEq, Repr

/-- The module state after the modules are loaded. -/
def ModuleState.initial : ModuleState :=
  { accessTokenSecret := Auth.accessTokenSecret
    USER_TABLE := Auth.USER_TABLE
    STUDENTS_TABLE := Auth.STUDENTS_TABLE }

/-- Where a call of `authenticateStudent` stands. -/
inductive Pc where
  /-- Called, nothing has run yet. -/
  | start
  /-- Suspended at `await query` of `findUserByEmail` in `models/users.js`. -/
  | awaitUsers
  /-- Suspended at `await bcrypt.compare(password, user.password)`. -/
  | awaitCompare (user : Row)
  /-- Suspended at `await query` of `findUserByEmail` in `models/students.js`. -/
  | awaitStudents
  /-- Settled: resolved with a value or rejected with an error. -/
  | finished (outcome : Except JSError (Option String))

/-- One call `authenticateStudent(email, password)` in progress: its arguments,
where it stands, and the library calls it has made so far. -/
structure Call where
  email : String
  password : String
  pc : Pc
  trace : List Event

/-- A call that has just been made. -/
def Call.start (email password : String) : Call :=
  { email := email, password := password, pc := Pc.start, trace := [] }

/-- Runs a call from where it stands to its next `await` (or to its end).  The
module state is handed back as it was: no statement of the three modules
assigns to a module-level binding. -/
def Call.step (w : World) (m : ModuleState) (c : Call) : Call × ModuleState :=
  match c.pc with
  | Pc.start =>
    ({ c with pc := Pc.awaitUsers
              trace := c.trace ++ [Event.knexWhere m.USER_TABLE c.email] }, m)
  | Pc.awaitUsers =>
    match w.knexWhere m.USER_TABLE c.email with
    | Except.error e => ({ c with pc := Pc.finished (Except.error e) }, m)
    | Except.ok [] =>
      ({ c with pc := Pc.finished (Except.ok none)
                trace := c.trace ++
                  [Event.consoleLog "Results of users query" [],
                   Event.consoleError ("No users matched the email: " ++ c.email)] }, m)
    | Except.ok (user :: rest) =>
      ({ c with pc := Pc.awaitCompare user
                trace := c.trace ++
                  [Event.consoleLog "Results of users query" (user :: rest),
                   Event.bcryptCompare c.password (Row.get user "password")] }, m)
  | Pc.awaitCompare user =>
    match w.bcryptCompare c.password (Row.get user "password") with
    | Except.error e => ({ c with pc := Pc.finished (Except.error e) }, m)
    | Except.ok false => ({ c with pc := Pc.finished (Except.ok none) }, m)
    | Except.ok true =>
      ({ c with pc := Pc.awaitStudents
                trace := c.trace ++ [Event.knexWhere m.STUDENTS_TABLE c.email] }, m)
  | Pc.awaitStudents =>
    match w.knexWhere m.STUDENTS_TABLE c.email with
    | Except.error e => ({ c with pc := Pc.finished (Except.error e) }, m)
    | Except.ok students =>
      ({ c with pc := Pc.finished
                  (Except.map some (w.jwtSign (claimsPayload students) m.accessTokenSecret none))
                trace := c.trace ++
                  [Event.consoleLog "Students" students,
                   Event.jwtSign (claimsPayload students) m.accessTokenSecret none] }, m)
  | Pc.finished _ => (c, m)

/-- A call run alone for `n` resumptions. -/
def Call.stepN (w : World) (m : ModuleState) (n : Nat) (c : Call) : Call :=
  match n with
  | 0 => c
  | k + 1 => Call.stepN w m k (Call.step w m c).1

/-- Two calls in flight over the same modules and the same store. -/
structure System where
  module : ModuleState
  first : Call
  second : Call

/-- One scheduling decision: the first call (`true`) or the second (`false`)
runs to its next `await`. -/
def System.step (w : World) (turn : Bool) (s : System) : System :=
  if turn then
    { s with first := (Call.step w s.module s.first).1
             module := (Call.step w s.module s.first).2 }
  else
    { s with second := (Call.step w s.module s.second).1
             module := (Call.step w s.module s.second).2 }

/-- The system after a whole schedule. -/
def System.run (w : World) (schedule : List Bool) (s : System) : System :=
  schedule.foldl (fun acc turn => System.step w turn acc) s

/-- The result of a call: its outcome once it has settled. -/
def Call.result (c : Call) : Option (Except JSError (Option String)) :=
  match c.pc with
  | Pc.finished outcome => some outcome
  | _ => none

/-- An example credential record for a second user: password `secret`. -/
def bobUser : Row :=
  [("email", JSVal.str "bob@smu.edu"), ("password", JSVal.str "hash:secret")]

end Auth

/-! The random generators (lecture Mar 30, `utils/random-generator.js`) -/

namespace Mar30

open Auth

/-- What the Chance generator and bcrypt hand out during one call of a mixin:
the value of `random.integer({ min: 10000000, max: 999999999 })`, of
`random.first()`, of `random.email()`, and the function `bcrypt.hashSync`. -/
structure Draw where
  integer : Int
  first : String
  email : String
  hashSync : String → Nat → String

/-- The spread `...options` after other entries of an object literal: each
property of `options`, in order, is written onto the object built so far. -/
def spreadOver (base : Row) (options : Row) : Row :=
  options.foldl (fun acc p => Row.set acc p.1 p.2) base

/-- The default parameter `options = {}`: an omitted argument is the empty
object. -/
def optionsOrDefault (options : Option Row) : Row :=
  match options with
  | none => []
  | some o => o

/-- The mixin `user`. -/
def user (d : Draw) (options : Option Row) : Row :=
  let plainPassword := "password"
  let hashedPassword := d.hashSync plainPassword 10
  spreadOver [("email", JSVal.str d.email), ("password", JSVal.str hashedPassword)]
    (optionsOrDefault options)

/-- The mixin `student`. -/
def student (d : Draw) (options : Option Row) : Row :=
  spreadOver
    [("id", JSVal.str (toString d.integer)), ("name", JSVal.str d.first),
     ("email", JSVal.str d.email)]
    (optionsOrDefault options)

/-- The mixin `professor`. -/
def professor (d : Draw) (options : Option Row) : Row :=
  spreadOver
    [("id", JSVal.str (toString d.integer)), ("name", JSVal.str d.first),
     ("email", JSVal.str d.email)]
    (optionsOrDefault options)

/-- An example draw. -/
def exampleDraw : Draw :=
  { integer := 76638115, first := "Derek", email := "lubmo@ninrezgec.vi",
    hashSync := fun plain _ => "hash:" ++ plain }

end Mar30

/-! The database of the migrations (lecture Apr 11) as knex sees it -/

namespace Db

open Auth

/-- The three tables the migrations create, each with its rows in the order a
query without `ORDER BY` returns them. -/
structure Database where
  users : List Row
  students : List Row
  professors : List Row
  deriving DecidableEq, Repr

/-- The tables of the schema. -/
inductive Table where
  | users
  | students
  | professors
  deriving DecidableEq, Repr

/-- The column `email` of a row. -/
def emailOf (r : Row) : JSVal := Row.get r "email"

/-- Whether some row of `students` or `professors` refers to a row of `users`
through the foreign key `email` that both migrations declare
(`table.foreign('email').references('users.email')`). -/
def Database.usersReferenced (db : Database) : Bool :=
  (db.students ++ db.professors).any
    (fun r => db.users.any (fun u => decide (emailOf u = emailOf r)))

/-- Whether every row carries the email of a row of `users`. -/
def Database.allReferToUsers (db : Database) (rows : List Row) : Bool :=
  rows.all (fun r => db.users.any (fun u => decide (emailOf u = emailOf r)))

/-- The query `knex(table).del()`: all rows of the table are deleted.  The
foreign keys have no `onDelete` rule, so deleting a referenced `users` row is
refused and the query rejects. -/
def knexDel (table : Table) (db : Database) : Except JSError Database :=
  match table with
  | Table.professors => Except.ok { db with professors := [] }
  | Table.students => Except.ok { db with students := [] }
  | Table.users =>
    if db.usersReferenced then
      Except.error ⟨"ER_ROW_IS_REFERENCED_2: a foreign key constraint fails"⟩
    else Except.ok { db with users := [] }

/-- The query `knex('users').limit(n).offset(k)` (`offset` 0 when not given). -/
def knexUsersLimitOffset (db : Database) (limit offset : Nat) : List Row :=
  (db.users.drop offset).take limit

/-- The query `knex('students').insert(rows)`; it rejects when a row refers to
no user. -/
def knexInsertStudents (rows : List Row) (db : Database) : Except JSError Database :=
  if db.allReferToUsers rows then Except.ok { db with students := db.students ++ rows }
  else Except.error ⟨"ER_NO_REFERENCED_ROW_2: a foreign key constraint fails"⟩

/-- The query `knex('professors').insert(rows)`; it rejects when a row refers to
no user. -/
def knexInsertProfessors (rows : List Row) (db : Database) : Except JSError Database :=
  if db.allReferToUsers rows then Except.ok { db with professors := db.professors ++ rows }
  else Except.error ⟨"ER_NO_REFERENCED_ROW_2: a foreign key constraint fails"⟩

end Db

/-! The seeds of lecture Mar 30 -/

namespace Mar30

open Auth Db

/-- The call `users.map((user) => mixin({ email: user.email }))`; the `i`-th
record made uses the `i`-th draw of the generator. -/
def mapWithEmail (mixin : Draw → Option Row → Row) (draws : Nat → Draw) (i : Nat)
    (users : List Row) : List Row :=
  match users with
  | [] => []
  | user :: rest =>
    mixin (draws i) (some [("email", emailOf user)]) :: mapWithEmail mixin draws (i + 1) rest

/-- The student records `seeds/002_students.js` builds. -/
def Students.rows (draws : Nat → Draw) (db : Database) : List Row :=
  mapWithEmail student draws 0 (knexUsersLimitOffset db 5 0)

/-- The function `seed` of `seeds/002_students.js`. -/
def Students.seed (draws : Nat → Draw) (db : Database) : Except JSError Database :=
  knexInsertStudents (Students.rows draws db) db

/-- The professor records `seeds/003_professors.js` builds. -/
def Professors.rows (draws : Nat → Draw) (db : Database) : List Row :=
  mapWithEmail professor draws 0 (knexUsersLimitOffset db 5 5)

/-- The function `seed` of `seeds/003_professors.js`. -/
def Professors.seed (draws : Nat → Draw) (db : Database) : Except JSError Database :=
  knexInsertProfessors (Professors.rows draws db) db

/-- An example users table with `n` users `u0@smu.edu`, `u1@smu.edu`, ... -/
def exampleUsers (n : Nat) : List Row :=
  (List.range n).map (fun i =>
    [("email", JSVal.str ("u" ++ toString i ++ "@smu.edu")), ("password", JSVal.str "hash:password")])

end Mar30

/-! The clear-db seed of lecture Apr 5 -/

namespace Apr5

open Auth Db

/-- The function `seed` of `seeds/000_clear_db.js`. -/
def seed (db : Database) : Except JSError Database := do
  let db1 ← knexDel Table.professors db
  let db2 ← knexDel Table.students db1
  knexDel Table.users db2

end Apr5

/-! The Express apps (lectures Mar 9 and Mar 21)

The connection helper `database-helpers.js` (`connectToDatabase`, and the
`DBQuery` and `disconnect` it resolves to) and Express itself are not among the
source files; the helper is a parameter `World`, and of Express the model keeps
what the apps rely on: layers are tried in registration order, a handler that
does not call `next` ends the chain, and the promise an `async` handler returns
is ignored. -/

namespace Express

open Auth (JSVal Row JSError Row.get)

/-- What `DBQuery` resolves to: the rows of a `SELECT`, or the result packet of
an `INSERT`, `UPDATE` or `DELETE`. -/
inductive DBResult where
  | rows (rs : List Row)
  | packet (fields : Row)
  deriving DecidableEq, Repr

/-- Property read `results.k` on a query result; an array of rows has no such
property. -/
def DBResult.get (r : DBResult) (k : String) : JSVal :=
  match r with
  | DBResult.rows _ => JSVal.undefined
  | DBResult.packet fields => Row.get fields k

/-- A value passed to `response.json`. -/
inductive Body where
  | result (r : DBResult)
  | object (o : Row)
  deriving DecidableEq, Repr

/-- The calls a handler makes, with their arguments (of a console call only its
first argument, the message, is kept). -/
inductive Event where
  | consoleLog (message : String)
  | consoleError (message : String) (err : JSError)
  | connectToDatabase
  | DBQuery (sql : String) (values : List JSVal)
  | disconnect
  /-- The call `response.status(code)`. -/
  | status (code : Nat)
  /-- The call `response.json(body)`; it sends the response. -/
  | json (body : Body)
  /-- The call `response.end()`; it sends the response. -/
  | endResponse
  /-- The chain ran off its last layer and the final handler of Express took over. -/
  | finalHandler
  deriving DecidableEq, Repr

/-- What the connection helper answers: each call resolves or throws. -/
structure World where
  connectToDatabase : Except JSError Unit
  DBQuery : String → List JSVal → Except JSError DBResult
  disconnect : Except JSError Unit

/-- A finished run of a handler or of a chain: its calls in order, and whether
it ended normally or by an error nobody caught. -/
structure Eff (α : Type) where
  trace : List Event
  outcome : Except JSError α

/-- A run that makes no call and returns `a`. -/
def Eff.ret {α : Type} (a : α) : Eff α := ⟨[], Except.ok a⟩

/-- Sequencing: the second part runs only when the first did not throw. -/
def Eff.andThen {α β : Type} (m : Eff α) (f : α → Eff β) : Eff β :=
  match m.outcome with
  | Except.error e => ⟨m.trace, Except.error e⟩
  | Except.ok a => ⟨m.trace ++ (f a).trace, (f a).outcome⟩

instance : Monad Eff where
  pure := Eff.ret
  bind := Eff.andThen

/-- The statement `try { body } catch (err) { handler }`. -/
def tryCatch {α : Type} (body : Eff α) (handler : JSError → Eff α) : Eff α :=
  match body.outcome with
  | Except.ok _ => body
  | Except.error err => ⟨body.trace ++ (handler err).trace, (handler err).outcome⟩

/-- A call that is recorded and cannot throw. -/
def emit (ev : Event) : Eff Unit := ⟨[ev], Except.ok ()⟩

/-- A call that is recorded and answers as the world says. -/
def call {α : Type} (ev : Event) (answer : Except JSError α) : Eff α := ⟨[ev], answer⟩

/-- The statement `throw err`. -/
def throwJs {α : Type} (err : JSError) : Eff α := ⟨[], Except.error err⟩

/-- The call `await connectToDatabase()`. -/
def connectToDatabase (w : World) : Eff Unit :=
  call Event.connectToDatabase w.connectToDatabase

/-- The call `await DBQuery(sql, values)` (`values` empty when not given). -/
def DBQuery (w : World) (sql : String) (values : List JSVal) : Eff DBResult :=
  call (Event.DBQuery sql values) (w.DBQuery sql values)

/-- The call `disconnect()`. -/
def disconnect (w : World) : Eff Unit := call Event.disconnect w.disconnect

/-- An incoming request: method, path segments, and the properties the handlers
read.  `sent` is the JSON document of the request, `body` the property
`request.body`, which is `undefined` until a body parser has run. -/
structure Request where
  method : String
  path : List String
  query : Row
  params : Row
  sent : Option Row
  body : Option Row

/-- Property read `payload.k` where `payload` may be `undefined`, in which case
the read throws a `TypeError`. -/
def readProperty (payload : Option Row) (k : String) : Eff JSVal :=
  match payload with
  | none => throwJs ⟨"Cannot read properties of undefined (reading " ++ k ++ ")"⟩
  | some o => pure (Row.get o k)

/-- The truth value of a JavaScript value in `if (v)`. -/
def truthy (v : JSVal) : Bool :=
  match v with
  | JSVal.undefined => false
  | JSVal.null => false
  | JSVal.num n => decide (n ≠ 0)
  | JSVal.str s => decide (s ≠ "")
  | JSVal.arr _ => true

/-- The body `{ message: err.message }`. -/
def errorBody (err : JSError) : Body := Body.object [("message", JSVal.str err.message)]

/-- The calls of a trace that concern the response. -/
def responseEvents (trace : List Event) : List Event :=
  trace.filter (fun ev =>
    match ev with
    | Event.status _ => true
    | Event.json _ => true
    | Event.endResponse => true
    | _ => false)

/-- The number of responses sent (`json` and `end` send one each). -/
def responsesSent (trace : List Event) : Nat :=
  trace.countP (fun ev =>
    match ev with
    | Event.json _ => true
    | Event.endResponse => true
    | _ => false)

/-- A segment of a route path: a literal, or a named parameter `:name`. -/
inductive Segment where
  | lit (s : String)
  | param (name : String)
  deriving DecidableEq, Repr

/-- Matches path segments against a route path; on success the parameters.
Segments are compared exactly: the model covers paths written in the letter
case of the route (Express itself also accepts other letter case). -/
def matchPath (pattern : List Segment) (path : List String) : Option Row :=
  match pattern, path with
  | [], [] => some []
  | Segment.lit s :: ps, x :: xs => if s = x then matchPath ps xs else none
  | Segment.param name :: ps, x :: xs =>
    (matchPath ps xs).map (fun rest => (name, JSVal.str x) :: rest)
  | _, _ => none

/-- A route: `app.METHOD(path, handler)`. -/
structure Route where
  method : String
  pattern : List Segment
  handler : World → Request → Eff Unit

/-- A layer of the application stack: a route whose handler never calls `next`,
or a middleware that changes the request and always calls `next`. -/
inductive Layer where
  | route (r : Route)
  | use (f : Request → Request)

/-- The dispatch of Express: the layers are tried in registration order; the first
route that matches handles the request and, as it never calls `next`, ends the
chain.  The method is compared exactly: the model covers methods written as in
the route (Express itself also serves `HEAD` through the `GET` routes). -/
def dispatch (w : World) (stack : List Layer) (request : Request) : Eff Unit :=
  match stack with
  | [] => emit Event.finalHandler
  | Layer.use f :: rest => dispatch w rest (f request)
  | Layer.route r :: rest =>
    if r.method = request.method then
      match matchPath r.pattern request.path with
      | some params => r.handler w { request with params := params }
      | none => dispatch w rest request
    else dispatch w rest request

/-- The middleware `bodyParser.json()`: `request.body` becomes the parsed
document, or `{}` when there is none. -/
def bodyParserJson (request : Request) : Request :=
  { request with body := some (match request.sent with
                              | some o => o
                              | none => []) }

end Express

/-! The app of lecture Mar 9 (`express-lecture.js`) -/

namespace Mar9

open Auth (JSVal Row JSError Row.get)
open Express

/-- The constant `port`. -/
def port : Int := 3000

/-- The handler of `app.get('/health', ..)`. -/
def health (_w : World) (_request : Request) : Eff Unit :=
  emit (Event.json (Body.object [("status", JSVal.str "up"), ("port", JSVal.num port)]))

/-- The handler of the first `app.get('/students', ..)` (line 80). -/
def getStudents (w : World) (_request : Request) : Eff Unit :=
  tryCatch
    (do
      emit (Event.consoleLog "Initiating GET /students request")
      connectToDatabase w
      let results ← DBQuery w "SELECT * FROM student" []
      disconnect w
      emit (Event.json (Body.result results)))
    (fun err => do
      emit (Event.consoleError "There was an error in GET /students" err)
      emit (Event.status 500)
      emit (Event.json (errorBody err)))

/-- The handler of `app.get('/students/:id', ..)`. -/
def getStudentById (w : World) (request : Request) : Eff Unit :=
  tryCatch
    (do
      emit (Event.consoleLog "Initiating GET /students/:id request")
      emit (Event.consoleLog "Request params is an object containing:")
      let id := Row.get request.params "id"
      connectToDatabase w
      let results ← DBQuery w "SELECT * FROM student WHERE id = ?" [id]
      disconnect w
      emit (Event.json (Body.result results)))
    (fun err => do
      emit (Event.consoleError "There was an error in GET /students/:id" err)
      emit (Event.status 500)
      emit (Event.json (errorBody err)))

/-- The handler of the second `app.get('/students', ..)` (line 169), the one
with the name filter. -/
def getStudentsByName (w : World) (request : Request) : Eff Unit :=
  tryCatch
    (do
      emit (Event.consoleLog "Initiating GET /students request")
      emit (Event.consoleLog "Request query arguments is an object containing:")
      let name := Row.get request.query "name"
      connectToDatabase w
      let results ←
        if truthy name then DBQuery w "SELECT * FROM student WHERE name = ?" [name]
        else DBQuery w "SELECT * FROM student" []
      disconnect w
      emit (Event.json (Body.result results)))
    (fun err => do
      emit (Event.consoleError "There was an error in GET /students" err)
      emit (Event.status 500)
      emit (Event.json (errorBody err)))

/-- The handler of `app.post('/students', ..)`. -/
def postStudents (w : World) (request : Request) : Eff Unit :=
  tryCatch
    (do
      emit (Event.consoleLog "Initiating POST /students request")
      emit (Event.consoleLog "Request has a body / payload containing:")
      let payload := request.body
      connectToDatabase w
      let name ← readProperty payload "name"
      let results ← DBQuery w "INSERT INTO student(name) VALUES (?)" [name]
      emit (Event.consoleLog "Results of my INSERT statement:")
      let newlyCreatedRecord ←
        DBQuery w "SELECT * FROM student WHERE id = ?" [DBResult.get results "insertId"]
      disconnect w
      emit (Event.status 201)
      emit (Event.json (Body.result newlyCreatedRecord)))
    (fun err => do
      emit (Event.consoleError "There was an error in POST /students" err)
      emit (Event.status 500)
      emit (Event.json (errorBody err)))

/-- The handler of `app.put('/students/:id', ..)`. -/
def putStudent (w : World) (request : Request) : Eff Unit :=
  tryCatch
    (do
      emit (Event.consoleLog "Initiating PUT /students/:id request")
      emit (Event.consoleLog "Request has a body / payload containing:")
      emit (Event.consoleLog "Request has params containing:")
      let payload := request.body
      let id := Row.get request.params "id"
      connectToDatabase w
      let name ← readProperty payload "name"
      let results ← DBQuery w "UPDATE student SET name = ? WHERE id = ?" [name, id]
      let _ := results
      emit (Event.consoleLog "Results of my UPDATE statement:")
      let newlyCreatedRecord ← DBQuery w "SELECT * FROM student WHERE id = ?" [id]
      disconnect w
      emit (Event.json (Body.result newlyCreatedRecord)))
    (fun err => do
      emit (Event.consoleError "There was an error in PUT /students" err)
      emit (Event.status 500)
      emit (Event.json (errorBody err)))

/-- The handler of `app.delete('/students/:id', ..)`. -/
def deleteStudent (w : World) (request : Request) : Eff Unit :=
  tryCatch
    (do
      emit (Event.consoleLog "Initiating DELETE /students/:id request")
      emit (Event.consoleLog "Request has params containing:")
      let id := Row.get request.params "id"
      connectToDatabase w
      let results ← DBQuery w "DELETE FROM student WHERE id = ?" [id]
      let _ := results
      emit (Event.consoleLog "Results of my UPDATE statement:")
      disconnect w
      emit (Event.status 204)
      emit Event.endResponse)
    (fun err => do
      emit (Event.consoleError "There was an error in PUT /students" err)
      emit (Event.status 500)
      emit (Event.json (errorBody err)))

/-- The application stack, in the order of the `app.get`, `app.use`, `app.post`,
`app.put` and `app.delete` calls of the file. -/
def stack : List Layer :=
  [Layer.route ⟨"GET", [Segment.lit "health"], health⟩,
   Layer.route ⟨"GET", [Segment.lit "students"], getStudents⟩,
   Layer.route ⟨"GET", [Segment.lit "students", Segment.param "id"], getStudentById⟩,
   Layer.route ⟨"GET", [Segment.lit "students"], getStudentsByName⟩,
   Layer.use bodyParserJson,
   Layer.route ⟨"POST", [Segment.lit "students"], postStudents⟩,
   Layer.route ⟨"PUT", [Segment.lit "students", Segment.param "id"], putStudent⟩,
   Layer.route ⟨"DELETE", [Segment.lit "students", Segment.param "id"], deleteStudent⟩]

/-- The app: what a request triggers. -/
def app (w : World) (request : Request) : Eff Unit := dispatch w stack request

/-- The six handlers on `/students`. -/
def crudHandlers : List (World → Request → Eff Unit) :=
  [getStudents, getStudentById, getStudentsByName, postStudents, putStudent, deleteStudent]

/-- The request `GET path?query`. -/
def getRequest (path : List String) (query : Row) : Request :=
  { method := "GET", path := path, query := query, params := [], sent := none, body := none }

/-- An example student row. -/
def chris : Row := [("id", JSVal.num 1), ("name", JSVal.str "Chris")]

/-- An example student row. -/
def dana : Row := [("id", JSVal.num 2), ("name", JSVal.str "Dana")]

/-- An example world: a student table with Chris and Dana, answering the two
`SELECT` statements on names as MySQL would. -/
def classWorld : World where
  connectToDatabase := Except.ok ()
  DBQuery := fun sql values =>
    if sql = "SELECT * FROM student" then Except.ok (DBResult.rows [chris, dana])
    else if sql = "SELECT * FROM student WHERE name = ?" then
      Except.ok (DBResult.rows
        ([chris, dana].filter (fun r => decide ([Row.get r "name"] = values))))
    else Except.ok (DBResult.rows [])
  disconnect := Except.ok ()

/-- An example world: the connection is made, every query is rejected. -/
def failingQueryWorld : World where
  connectToDatabase := Except.ok ()
  DBQuery := fun _ _ => Except.error ⟨"ER_NO_SUCH_TABLE"⟩
  disconnect := Except.ok ()

/-- The request `PUT path` with a JSON document. -/
def putRequest (path : List String) (document : Row) : Request :=
  { method := "PUT", path := path, query := [], params := [], sent := some document,
    body := none }

/-- An example world: the database cannot be reached. -/
def unreachableWorld : World where
  connectToDatabase := Except.error ⟨"connect ECONNREFUSED"⟩
  DBQuery := fun _ _ => Except.ok (DBResult.rows [])
  disconnect := Except.ok ()

/-- A handler answers failures with 500: whenever connecting throws `err`, or a
query the handler makes throws `err`, the handler ends normally and its only
calls on the response are `status(500)` and `json({ message: err.message })`. -/
def AnswersWith500 (handler : World → Request → Eff Unit) : Prop :=
  ∀ (w : World) (request : Request) (err : JSError),
    (w.connectToDatabase = Except.error err ∨
      ∃ sql values, Event.DBQuery sql values ∈ (handler w request).trace ∧
        w.DBQuery sql values = Except.error err) →
    responseEvents (handler w request).trace =
      [Event.status 500, Event.json (Body.object [("message", JSVal.str err.message)])] ∧
    responsesSent (handler w request).trace = 1 ∧
    (handler w request).outcome = Except.ok ()

end Mar9

/-! The app of lecture Mar 21 (`index.js`, `middleware/model-middleware.js`,
`routes/student.js`, `models/student.js`)

A middleware or handler `(req, res, next) => ..` takes the rest of the chain as
its argument `next` and runs it where the source calls `next()`.  An error
thrown before that call ends the run: nothing in the app catches it and the
rest of the chain is never run. -/

namespace Mar21

open Auth (JSVal Row JSError Row.get)
open Express

/-- The constant `port`. -/
def port : Int := 3000

/-- The middleware `createModelsMiddleware`; the assignments to `req.models` and
`req.disconnect` keep the `DBQuery` and `disconnect` of the connection for the
later layers. -/
def createModelsMiddleware (w : World) (next : Eff Unit) : Eff Unit := do
  emit (Event.consoleLog "Connecting to the database")
  connectToDatabase w
  next

/-- The middleware `disconnectFromDatababaseMiddleware`. -/
def disconnectFromDatababaseMiddleware (w : World) (next : Eff Unit) : Eff Unit := do
  emit (Event.consoleLog "Disconnecting from the database")
  disconnect w
  next

/-- The method `fetchAllStudents` of the class `Student`. -/
def Student.fetchAllStudents (w : World) : Eff DBResult :=
  DBQuery w "SELECT * FROM student" []

/-- The method `fetchStudentsByName` of the class `Student`. -/
def Student.fetchStudentsByName (w : World) (name : JSVal) : Eff DBResult :=
  DBQuery w "SELECT * FROM student WHERE name = ?" [name]

/-- The handler of `app.get('/health', ..)`. -/
def health (next : Eff Unit) : Eff Unit := do
  emit (Event.json (Body.object [("status", JSVal.str "up"), ("port", JSVal.num port)]))
  next

/-- The handler of `router.get('/', ..)` in `routes/student.js`. -/
def studentsIndex (w : World) (next : Eff Unit) : Eff Unit := do
  let allStudents ← Student.fetchAllStudents w
  emit (Event.json (Body.result allStudents))
  next

/-- The router `studentRoutes`, entered with the path that follows `/students`:
its one route handles `GET /`, anything else goes on to `next`. -/
def studentRoutes (w : World) (request : Request) (rest : List String) (next : Eff Unit) :
    Eff Unit :=
  if request.method = "GET" ∧ rest = [] then studentsIndex w next else next

/-- The layer `app.get('/health', ..)`. -/
def healthLayer (request : Request) (next : Eff Unit) : Eff Unit :=
  if request.method = "GET" ∧ request.path = ["health"] then health next else next

/-- The layer `app.use('/students', studentRoutes)`. -/
def studentsLayer (w : World) (request : Request) (next : Eff Unit) : Eff Unit :=
  match request.path with
  | "students" :: rest => studentRoutes w request rest next
  | _ => next

/-- The app: the four layers in the order `index.js` registers them, then the
final handler of Express. -/
def app (w : World) (request : Request) : Eff Unit :=
  createModelsMiddleware w
    (healthLayer request
      (studentsLayer w request
        (disconnectFromDatababaseMiddleware w (emit Event.finalHandler))))

/-- How often `disconnect` was called in a run. -/
def disconnects (trace : List Event) : Nat := trace.count Event.disconnect

/-- The request `GET path`. -/
def getRequest (path : List String) : Request :=
  { method := "GET", path := path, query := [], params := [], sent := none, body := none }

/-- An example world: the connection is made, every query is rejected. -/
def rejectingWorld : World where
  connectToDatabase := Except.ok ()
  DBQuery := fun _ _ => Except.error ⟨"ER_NO_SUCH_TABLE"⟩
  disconnect := Except.ok ()

/-- An example world: an empty student table. -/
def healthyWorld : World where
  connectToDatabase := Except.ok ()
  DBQuery := fun _ _ => Except.ok (DBResult.rows [])
  disconnect := Except.ok ()

end Mar21

/-! The seeds of lecture Apr 25 (`seeds/index.js`, `seeds/000_clear_db.js`,
`seeds/001_users.js`) over the modules `models/users.js` and
`models/students.js`

Mongoose and the random generator of this lecture are not among the source
files.  The generator is the one of lecture Mar 30; of mongoose the model keeps
the two calls the seeds make, as a parameter `World`. -/

namespace Apr25

open Auth (JSVal Row JSError Row.get)

/-- The two kinds of value the seeds apply `new` and `deleteMany` to: a mongoose
model class, or a plain object with the given property names. -/
inductive JSObject where
  | model (name : String)
  | plain (keys : List String)
  deriving DecidableEq, Repr

/-- What `require('../models/users')` evaluates to: the object assigned to
`module.exports`.  The model class `User` is a local constant of the module and
is not exported. -/
def usersModule : JSObject :=
  JSObject.plain ["createNewUser", "findUserByEmail", "authenticateUser", "deleteMany"]

/-- What `require('../models/students')` evaluates to. -/
def studentsModule : JSObject :=
  JSObject.plain ["findUserByEmail", "createStudent", "deleteMany"]

/-- The two collections of the database. -/
structure Store where
  users : List Row
  students : List Row
  deriving DecidableEq, Repr

/-- The calls the seeds make to mongoose. -/
inductive Event where
  /-- The call `X.deleteMany({})`, `X` a module object, for the static method of
  the named model. -/
  | deleteMany (model : String)
  /-- The call `user.save()`. -/
  | save (document : Row)
  deriving DecidableEq, Repr

/-- Mongoose: what `deleteMany`, detached from its model and called with the
object `this`, does to the store, and what `save` of a document does. -/
structure World where
  deleteMany : (this : JSObject) → (model : String) → Store → Except JSError Store
  save : Row → Store → Except JSError Store

/-- The state after a seed ran: the store, the calls made, and whether the
promise resolved. -/
structure Outcome where
  store : Store
  trace : List Event
  result : Except JSError Unit

/-- The expression `new X(argument)`: a `TypeError` unless `X` is a class. -/
def construct (x : JSObject) (name : String) (argument : Row) : Except JSError Row :=
  match x with
  | JSObject.model _ => Except.ok argument
  | JSObject.plain _ => Except.error ⟨name ++ " is not a constructor"⟩

/-- The function `seed` of `seeds/000_clear_db.js`. -/
def ClearDb.seed (w : World) (store : Store) : Outcome :=
  match w.deleteMany usersModule "User" store with
  | Except.error e => ⟨store, [Event.deleteMany "User"], Except.error e⟩
  | Except.ok store1 =>
    match w.deleteMany studentsModule "Student" store1 with
    | Except.error e =>
      ⟨store1, [Event.deleteMany "User", Event.deleteMany "Student"], Except.error e⟩
    | Except.ok store2 =>
      ⟨store2, [Event.deleteMany "User", Event.deleteMany "Student"], Except.ok ()⟩

/-- The call `random.n(random.user, n)`: `n` generated users, the `i`-th from
the `i`-th draw. -/
def randomUsers (draws : Nat → Mar30.Draw) (n : Nat) : List Row :=
  (List.range n).map (fun i => Mar30.user (draws i) none)

/-- The call `Promise.all(users.map(user => user.save()))`: every save is
started; the promise rejects with the first error, if there is one. -/
def saveAll (w : World) (documents : List Row) (store : Store) : Outcome :=
  documents.foldl
    (fun acc document =>
      match w.save document acc.store with
      | Except.ok store1 => ⟨store1, acc.trace ++ [Event.save document], acc.result⟩
      | Except.error e =>
        ⟨acc.store, acc.trace ++ [Event.save document],
          match acc.result with
          | Except.ok _ => Except.error e
          | Except.error e0 => Except.error e0⟩)
    ⟨store, [], Except.ok ()⟩

/-- The function `seed` of `seeds/001_users.js`. -/
def Users.seed (w : World) (draws : Nat → Mar30.Draw) (store : Store) : Outcome :=
  match (randomUsers draws 100).mapM (construct usersModule "User") with
  | Except.error e => ⟨store, [], Except.error e⟩
  | Except.ok users => saveAll w users store

/-- The function `runSeeds` of `seeds/index.js`. -/
def runSeeds (w : World) (draws : Nat → Mar30.Draw) (store : Store) : Outcome :=
  let cleared := ClearDb.seed w store
  match cleared.result with
  | Except.error e => ⟨cleared.store, cleared.trace, Except.error e⟩
  | Except.ok _ =>
    let seeded := Users.seed w draws cleared.store
    ⟨seeded.store, cleared.trace ++ seeded.trace, seeded.result⟩

/-- An example mongoose in which the detached `deleteMany` does what the seed
hopes for, emptying the collection of its model, and `save` adds the user. -/
def forgivingWorld : World where
  deleteMany := fun _ model store =>
    if model = "User" then Except.ok { store with users := [] }
    else Except.ok { store with students := [] }
  save := fun document store => Except.ok { store with users := store.users ++ [document] }

/-- An example store with one user and one student left from an earlier run. -/
def staleStore : Store :=
  { users := [[("email", JSVal.str "old@smu.edu"), ("password", JSVal.str "hash:old")]],
    students := [[("name", JSVal.str "Old"), ("email", JSVal.str "old@smu.edu")]] }

end Apr25

/-! Functions passed to functions (lecture Feb 23, `index.js`) -/

namespace Feb23

/-- The loop of `applyFunctionToArray` from index `i` on.  The program state is
`s`; `arrayOf s` is the content of the array in that state, and `func element s`
is the state after the call `func(element)`, which may have changed anything,
the array included.  The test `i < array.length` reads the length anew in each
round.  `fuel` bounds the number of rounds; `none` means it ran out. -/
def applyLoop {σ α : Type} (arrayOf : σ → List α) (func : α → σ → σ)
    (fuel : Nat) (i : Nat) (s : σ) (calls : List α) : Option (σ × List α) :=
  match fuel with
  | 0 => none
  | fuel1 + 1 =>
    if h : i < (arrayOf s).length then
      let element := (arrayOf s).get ⟨i, h⟩
      applyLoop arrayOf func fuel1 (i + 1) (func element s) (calls ++ [element])
    else some (s, calls)

/-- The function `applyFunctionToArray`: the final state and the arguments of
the calls of `func`, in order. -/
def applyFunctionToArray {σ α : Type} (arrayOf : σ → List α) (func : α → σ → σ)
    (fuel : Nat) (s : σ) : Option (σ × List α) :=
  applyLoop arrayOf func fuel 0 s []

/-- The rounds of `Array.prototype.forEach` from index `k` on, `remaining` of
them: an index that is still in the array gets its call, one that is not is
skipped. -/
def forEachFrom {σ α : Type} (arrayOf : σ → List α) (func : α → σ → σ)
    (remaining : Nat) (k : Nat) (s : σ) (calls : List α) : σ × List α :=
  match remaining with
  | 0 => (s, calls)
  | remaining1 + 1 =>
    if h : k < (arrayOf s).length then
      let element := (arrayOf s).get ⟨k, h⟩
      forEachFrom arrayOf func remaining1 (k + 1) (func element s) (calls ++ [element])
    else forEachFrom arrayOf func remaining1 (k + 1) s calls

/-- The call `array.forEach(func)` as the language defines it: the length is
read once, before the first call. -/
def forEachSpec {σ α : Type} (arrayOf : σ → List α) (func : α → σ → σ) (s : σ) :
    σ × List α :=
  forEachFrom arrayOf func (arrayOf s).length 0 s []

/-- An example callback that pushes its argument onto the array while the array
has fewer than four elements. -/
def pushUpToFour (element : Nat) (array : List Nat) : List Nat :=
  if array.length < 4 then array ++ [element] else array

/-- An example callback that only counts its calls; the state is the array and
the counter. -/
def countCalls (_element : String) (s : List String × Nat) : List String × Nat :=
  (s.1, s.2 + 1)

end Feb23

/-! Lemmas and theorems -/

namespace Auth

/-- An example second credential record under the email of `annUser`, with
another hash. -/
def annTwin : Row :=
  [("email", JSVal.str "ann@smu.edu"), ("password", JSVal.str "hash:other")]

/-- An example second profile record under the email of `annStudent`. -/
def annStudentTwin : Row :=
  [("id", JSVal.num 70), ("email", JSVal.str "ann@smu.edu"), ("name", JSVal.str "Anna")]

/-! ## Lemmas on the runs of `authenticateUser` and `authenticateStudent` -/

theorem authenticateUser_lookup_throws (w : World) (email password : String) (e : JSError)
    (h : w.knexWhere USER_TABLE email = Except.error e) :
    User.authenticateUser w email password =
      ⟨[Event.knexWhere USER_TABLE email], Except.error e⟩ := by
  simp [User.authenticateUser, User.findUserByEmail, bind, Run.andThen, perform, h]

theorem authenticateUser_no_user (w : World) (email password : String)
    (h : w.knexWhere USER_TABLE email = Except.ok []) :
    User.authenticateUser w email password = ⟨noUserTrace email, Except.ok none⟩ := by
  simp [User.authenticateUser, User.findUserByEmail, bind, pure, Run.andThen, Run.ret,
    perform, consoleLog, consoleError, noUserTrace, h]

theorem authenticateUser_compare_throws (w : World) (email password : String)
    (user : Row) (rest : List Row) (e : JSError)
    (h : w.knexWhere USER_TABLE email = Except.ok (user :: rest))
    (hc : w.bcryptCompare password (Row.get user "password") = Except.error e) :
    User.authenticateUser w email password =
      ⟨userTrace email password user rest, Except.error e⟩ := by
  simp [User.authenticateUser, User.findUserByEmail, bind, Run.andThen,
    perform, consoleLog, userTrace, h, hc]

theorem authenticateUser_compared (w : World) (email password : String)
    (user : Row) (rest : List Row) (valid : Bool)
    (h : w.knexWhere USER_TABLE email = Except.ok (user :: rest))
    (hc : w.bcryptCompare password (Row.get user "password") = Except.ok valid) :
    User.authenticateUser w email password =
      ⟨userTrace email password user rest,
       Except.ok (if valid then some (Row.delete user "password") else none)⟩ := by
  cases valid <;>
    simp [User.authenticateUser, User.findUserByEmail, bind, pure, Run.andThen, Run.ret,
      perform, consoleLog, userTrace, h, hc]

theorem authenticateStudent_user_throws (w : World) (email password : String) (e : JSError)
    (h : (User.authenticateUser w email password).outcome = Except.error e) :
    authenticateStudent w email password =
      ⟨(User.authenticateUser w email password).trace, Except.error e⟩ := by
  simp [authenticateStudent, bind, Run.andThen, h]

theorem authenticateStudent_user_null (w : World) (email password : String)
    (h : (User.authenticateUser w email password).outcome = Except.ok none) :
    authenticateStudent w email password =
      ⟨(User.authenticateUser w email password).trace, Except.ok none⟩ := by
  simp [authenticateStudent, bind, pure, Run.andThen, Run.ret, h]

theorem authenticateStudent_profile_throws (w : World) (email password : String)
    (user : Row) (e : JSError)
    (h : (User.authenticateUser w email password).outcome = Except.ok (some user))
    (hs : w.knexWhere STUDENTS_TABLE email = Except.error e) :
    authenticateStudent w email password =
      ⟨(User.authenticateUser w email password).trace ++ [Event.knexWhere STUDENTS_TABLE email],
       Except.error e⟩ := by
  simp [authenticateStudent, Student.findUserByEmail, bind, Run.andThen, perform, h, hs]

theorem authenticateStudent_signs (w : World) (email password : String)
    (user : Row) (students : List Row)
    (h : (User.authenticateUser w email password).outcome = Except.ok (some user))
    (hs : w.knexWhere STUDENTS_TABLE email = Except.ok students) :
    authenticateStudent w email password =
      ⟨(User.authenticateUser w email password).trace ++ studentTrace email students,
       Except.map some (w.jwtSign (claimsPayload students) accessTokenSecret none)⟩ := by
  cases hj : w.jwtSign (claimsPayload students) accessTokenSecret none <;>
    simp [authenticateStudent, Student.findUserByEmail, bind, pure, Run.andThen, Run.ret,
      perform, consoleLog, studentTrace, Except.map, h, hs, hj]

/-- Every run of `authenticateStudent` is one of six: the credential lookup
throws, finds nothing, the comparison throws, answers `false`, the profile
lookup throws, or the signing step is reached. -/
theorem authenticateStudent_run (w : World) (email password : String) :
    (∃ e, w.knexWhere USER_TABLE email = Except.error e ∧
      authenticateStudent w email password =
        ⟨[Event.knexWhere USER_TABLE email], Except.error e⟩) ∨
    (w.knexWhere USER_TABLE email = Except.ok [] ∧
      authenticateStudent w email password = ⟨noUserTrace email, Except.ok none⟩) ∨
    (∃ user rest e, w.knexWhere USER_TABLE email = Except.ok (user :: rest) ∧
      w.bcryptCompare password (Row.get user "password") = Except.error e ∧
      authenticateStudent w email password =
        ⟨userTrace email password user rest, Except.error e⟩) ∨
    (∃ user rest, w.knexWhere USER_TABLE email = Except.ok (user :: rest) ∧
      w.bcryptCompare password (Row.get user "password") = Except.ok false ∧
      authenticateStudent w email password =
        ⟨userTrace email password user rest, Except.ok none⟩) ∨
    (∃ user rest e, w.knexWhere USER_TABLE email = Except.ok (user :: rest) ∧
      w.bcryptCompare password (Row.get user "password") = Except.ok true ∧
      w.knexWhere STUDENTS_TABLE email = Except.error e ∧
      authenticateStudent w email password =
        ⟨userTrace email password user rest ++ [Event.knexWhere STUDENTS_TABLE email],
         Except.error e⟩) ∨
    (∃ user rest students, w.knexWhere USER_TABLE email = Except.ok (user :: rest) ∧
      w.bcryptCompare password (Row.get user "password") = Except.ok true ∧
      w.knexWhere STUDENTS_TABLE email = Except.ok students ∧
      authenticateStudent w email password =
        ⟨userTrace email password user rest ++ studentTrace email students,
         Except.map some (w.jwtSign (claimsPayload students) accessTokenSecret none)⟩) := by
  cases hu : w.knexWhere USER_TABLE email with
  | error e =>
    have h1 := authenticateUser_lookup_throws w email password e hu
    have h2 := authenticateStudent_user_throws w email password e (by rw [h1])
    rw [h1] at h2
    exact Or.inl ⟨e, rfl, h2⟩
  | ok users =>
    cases users with
    | nil =>
      have h1 := authenticateUser_no_user w email password hu
      have h2 := authenticateStudent_user_null w email password (by rw [h1])
      rw [h1] at h2
      exact Or.inr (Or.inl ⟨rfl, h2⟩)
    | cons user rest =>
      cases hc : w.bcryptCompare password (Row.get user "password") with
      | error e =>
        have h1 := authenticateUser_compare_throws w email password user rest e hu hc
        have h2 := authenticateStudent_user_throws w email password e (by rw [h1])
        rw [h1] at h2
        exact Or.inr (Or.inr (Or.inl ⟨user, rest, e, rfl, hc, h2⟩))
      | ok valid =>
        have h1 := authenticateUser_compared w email password user rest valid hu hc
        cases valid with
        | false =>
          have h2 := authenticateStudent_user_null w email password (by rw [h1]; rfl)
          rw [h1] at h2
          exact Or.inr (Or.inr (Or.inr (Or.inl ⟨user, rest, rfl, hc, h2⟩)))
        | true =>
          have h0 : (User.authenticateUser w email password).outcome =
              Except.ok (some (Row.delete user "password")) := by rw [h1]; rfl
          cases hs : w.knexWhere STUDENTS_TABLE email with
          | error e =>
            have h2 := authenticateStudent_profile_throws w email password _ e h0 hs
            rw [h1] at h2
            exact Or.inr (Or.inr (Or.inr (Or.inr (Or.inl ⟨user, rest, e, rfl, hc, rfl, h2⟩))))
          | ok students =>
            have h2 := authenticateStudent_signs w email password _ students h0 hs
            rw [h1] at h2
            exact Or.inr (Or.inr (Or.inr (Or.inr (Or.inr
              ⟨user, rest, students, rfl, hc, rfl, h2⟩))))

/-! ## Objects -/

theorem Row.has_eq_true_iff (o : Row) (k : String) : Row.has o k = true ↔ k ∈ Row.keys o := by
  induction o with
  | nil => simp [Row.has, Row.keys]
  | cons p rest ih =>
    obtain ⟨k1, v⟩ := p
    by_cases h : k1 = k
    · simp [Row.has, Row.keys, h]
    · have h2 : ¬ k = k1 := fun e => h e.symm
      simp only [Row.keys] at ih
      simp [Row.has, Row.keys, h, h2, ih]

theorem Row.get_cons (k1 k : String) (v : JSVal) (rest : Row) :
    Row.get ((k1, v) :: rest) k = if k1 = k then v else Row.get rest k := rfl

theorem Row.has_cons (k1 k : String) (v : JSVal) (rest : Row) :
    Row.has ((k1, v) :: rest) k = if k1 = k then true else Row.has rest k := rfl

theorem Row.get_replace_self (o : Row) (k : String) (v : JSVal) (h : Row.has o k = true) :
    Row.get (o.map (fun p => if p.1 = k then (k, v) else p)) k = v := by
  induction o with
  | nil => simp [Row.has] at h
  | cons p rest ih =>
    obtain ⟨k1, v1⟩ := p
    rw [List.map_cons]
    by_cases h1 : k1 = k
    · subst h1
      rw [if_pos rfl, Row.get_cons, if_pos rfl]
    · rw [Row.has_cons, if_neg h1] at h
      rw [if_neg h1, Row.get_cons, if_neg h1]
      exact ih h

theorem Row.get_replace_other (o : Row) (k k2 : String) (v : JSVal) (hk : k2 ≠ k) :
    Row.get (o.map (fun p => if p.1 = k then (k, v) else p)) k2 = Row.get o k2 := by
  induction o with
  | nil => rfl
  | cons p rest ih =>
    obtain ⟨k1, v1⟩ := p
    rw [List.map_cons]
    by_cases h1 : k1 = k
    · subst h1
      rw [if_pos rfl, Row.get_cons, Row.get_cons, if_neg (Ne.symm hk), if_neg (Ne.symm hk)]
      exact ih
    · rw [if_neg h1, Row.get_cons, Row.get_cons, ih]

theorem Row.get_append_self (o : Row) (k : String) (v : JSVal) (h : ¬ Row.has o k = true) :
    Row.get (o ++ [(k, v)]) k = v := by
  induction o with
  | nil => rw [List.nil_append, Row.get_cons, if_pos rfl]
  | cons p rest ih =>
    obtain ⟨k1, v1⟩ := p
    rw [List.cons_append, Row.get_cons]
    by_cases h1 : k1 = k
    · subst h1
      rw [Row.has_cons, if_pos rfl] at h
      exact absurd rfl h
    · rw [Row.has_cons, if_neg h1] at h
      rw [if_neg h1]
      exact ih h

theorem Row.get_append_other (o : Row) (k k2 : String) (v : JSVal) (hk : k2 ≠ k) :
    Row.get (o ++ [(k, v)]) k2 = Row.get o k2 := by
  induction o with
  | nil =>
    rw [List.nil_append, Row.get_cons, if_neg (Ne.symm hk)]
  | cons p rest ih =>
    obtain ⟨k1, v1⟩ := p
    rw [List.cons_append, Row.get_cons, Row.get_cons, ih]

theorem Row.get_set_self (o : Row) (k : String) (v : JSVal) :
    Row.get (Row.set o k v) k = v := by
  unfold Row.set
  by_cases h : Row.has o k = true
  · rw [if_pos h]; exact Row.get_replace_self o k v h
  · rw [if_neg h]; exact Row.get_append_self o k v h

theorem Row.get_set_other (o : Row) (k k2 : String) (v : JSVal) (hk : k2 ≠ k) :
    Row.get (Row.set o k v) k2 = Row.get o k2 := by
  unfold Row.set
  by_cases h : Row.has o k = true
  · rw [if_pos h]; exact Row.get_replace_other o k k2 v hk
  · rw [if_neg h]; exact Row.get_append_other o k k2 v hk

theorem Row.mem_set_self (o : Row) (k : String) (v : JSVal) : (k, v) ∈ Row.set o k v := by
  unfold Row.set
  split
  · rename_i h
    rw [Row.has_eq_true_iff] at h
    simp only [Row.keys, List.mem_map] at h
    obtain ⟨p, hp, hpk⟩ := h
    exact List.mem_map.mpr ⟨p, hp, by simp [hpk]⟩
  · simp

theorem Row.mem_set_other (o : Row) (k k2 : String) (v v2 : JSVal) (hk : k2 ≠ k)
    (h : (k2, v2) ∈ o) : (k2, v2) ∈ Row.set o k v := by
  unfold Row.set
  split
  · exact List.mem_map.mpr ⟨(k2, v2), h, by simp [hk]⟩
  · simp [h]

theorem Row.mem_set (o : Row) (k : String) (v : JSVal) (p : String × JSVal)
    (h : p ∈ Row.set o k v) : p = (k, v) ∨ p ∈ o := by
  unfold Row.set at h
  split at h
  · obtain ⟨q, hq, hqp⟩ := List.mem_map.mp h
    by_cases hk : q.1 = k
    · simp [hk] at hqp
      exact Or.inl hqp.symm
    · simp [hk] at hqp
      exact Or.inr (hqp ▸ hq)
  · simp at h
    rcases h with h | h
    · exact Or.inr h
    · exact Or.inl h

theorem Row.mem_keys_set (o : Row) (k k2 : String) (v : JSVal) :
    k2 ∈ Row.keys (Row.set o k v) ↔ k2 = k ∨ k2 ∈ Row.keys o := by
  constructor
  · intro h
    obtain ⟨p, hp, hpk⟩ := List.mem_map.mp h
    rcases Row.mem_set o k v p hp with h1 | h1
    · left; rw [← hpk, h1]
    · right; exact List.mem_map.mpr ⟨p, h1, hpk⟩
  · rintro (h | h)
    · rw [h]; exact List.mem_map.mpr ⟨(k, v), Row.mem_set_self o k v, rfl⟩
    · obtain ⟨p, hp, hpk⟩ := List.mem_map.mp h
      by_cases hk : k2 = k
      · rw [hk]; exact List.mem_map.mpr ⟨(k, v), Row.mem_set_self o k v, rfl⟩
      · obtain ⟨k1, v1⟩ := p
        simp only at hpk
        subst hpk
        exact List.mem_map.mpr ⟨(k1, v1), Row.mem_set_other o k k1 v v1 hk hp, rfl⟩

/-- Whenever `jwt.sign` is called, the credential check has succeeded, the
profile lookup has answered, and the call is
`jwt.sign({ ...students[0], claims: ['student'] }, accessTokenSecret)`. -/
theorem sign_event_inv (w : World) (email password : String)
    (payload : Row) (secret : String) (options : Option Row)
    (hm : Event.jwtSign payload secret options ∈ (authenticateStudent w email password).trace) :
    ∃ user rest students, w.knexWhere USER_TABLE email = Except.ok (user :: rest) ∧
      w.bcryptCompare password (Row.get user "password") = Except.ok true ∧
      w.knexWhere STUDENTS_TABLE email = Except.ok students ∧
      payload = claimsPayload students ∧ secret = accessTokenSecret ∧ options = none := by
  rcases authenticateStudent_run w email password with
    ⟨e, _, h⟩ | ⟨_, h⟩ | ⟨user, rest, e, _, _, h⟩ | ⟨user, rest, _, _, h⟩ |
    ⟨user, rest, e, _, _, _, h⟩ | ⟨user, rest, students, hu, hc, hs, h⟩
  · rw [h] at hm; simp at hm
  · rw [h] at hm; simp [noUserTrace] at hm
  · rw [h] at hm; simp [userTrace] at hm
  · rw [h] at hm; simp [userTrace] at hm
  · rw [h] at hm; simp [userTrace] at hm
  · rw [h] at hm
    simp [userTrace, studentTrace] at hm
    exact ⟨user, rest, students, hu, hc, hs, hm.1, hm.2.1, hm.2.2⟩

theorem Row.keys_spread_head (students : List Row) (k : String)
    (hrows : ∀ r ∈ students, IsStudentRow r) (hk : k ∈ Row.keys (spread students.head?)) :
    k ∈ studentsColumns := by
  cases students with
  | nil => simp [spread, Row.keys] at hk
  | cons profile more => exact hrows profile (List.mem_cons_self _ _) k hk

theorem length_le_sum_of_mem (keys : List String) (s : String) (h : s ∈ keys) :
    s.length ≤ (keys.map String.length).sum := by
  induction keys with
  | nil => simp at h
  | cons a rest ih =>
    rw [List.map_cons, List.sum_cons]
    rcases List.mem_cons.mp h with h1 | h1
    · rw [h1]; exact Nat.le_add_right _ _
    · exact Nat.le_trans (ih h1) (Nat.le_add_left _ _)

theorem freshKey_not_mem (keys : List String) : freshKey keys ∉ keys := by
  intro h
  have h1 := length_le_sum_of_mem keys (freshKey keys) h
  simp only [freshKey, String.length_mk, List.length_replicate] at h1
  exact Nat.not_succ_le_self _ h1

/-! ## Claims -/

/-- C1: a token is issued only after a successful password match.  If
`authenticateStudent` returns a token, or calls `jwt.sign` at all, then the
credential lookup for the email was non-empty and `bcrypt.compare` of the
password with the stored hash of the first record answered `true`; when the
comparison answers `false`, `authenticateUser` and `authenticateStudent` both
return `null` and `jwt.sign` is never called. -/
theorem token_only_after_password_match (w : World) (email password : String) :
    (∀ t, (authenticateStudent w email password).outcome = Except.ok (some t) →
      ∃ user rest, w.knexWhere USER_TABLE email = Except.ok (user :: rest) ∧
        w.bcryptCompare password (Row.get user "password") = Except.ok true) ∧
    (∀ payload secret options,
      Event.jwtSign payload secret options ∈ (authenticateStudent w email password).trace →
      ∃ user rest, w.knexWhere USER_TABLE email = Except.ok (user :: rest) ∧
        w.bcryptCompare password (Row.get user "password") = Except.ok true) ∧
    (∀ user rest, w.knexWhere USER_TABLE email = Except.ok (user :: rest) →
      w.bcryptCompare password (Row.get user "password") = Except.ok false →
      (User.authenticateUser w email password).outcome = Except.ok none ∧
      (authenticateStudent w email password).outcome = Except.ok none ∧
      ∀ payload secret options,
        Event.jwtSign payload secret options ∉ (authenticateStudent w email password).trace) := by
  refine ⟨?_, ?_, ?_⟩
  · intro t ht
    rcases authenticateStudent_run w email password with
      ⟨e, _, h⟩ | ⟨_, h⟩ | ⟨user, rest, e, _, _, h⟩ | ⟨user, rest, _, _, h⟩ |
      ⟨user, rest, e, _, _, _, h⟩ | ⟨user, rest, students, hu, hc, _, _⟩
    · rw [h] at ht; cases ht
    · rw [h] at ht; cases ht
    · rw [h] at ht; cases ht
    · rw [h] at ht; cases ht
    · rw [h] at ht; cases ht
    · exact ⟨user, rest, hu, hc⟩
  · intro payload secret options hm
    rcases authenticateStudent_run w email password with
      ⟨e, _, h⟩ | ⟨_, h⟩ | ⟨user, rest, e, _, _, h⟩ | ⟨user, rest, _, _, h⟩ |
      ⟨user, rest, e, _, _, _, h⟩ | ⟨user, rest, students, hu, hc, _, _⟩
    · rw [h] at hm; simp at hm
    · rw [h] at hm; simp [noUserTrace] at hm
    · rw [h] at hm; simp [userTrace] at hm
    · rw [h] at hm; simp [userTrace] at hm
    · rw [h] at hm; simp [userTrace] at hm
    · exact ⟨user, rest, hu, hc⟩
  · intro user rest hu hc
    have h1 := authenticateUser_compared w email password user rest false hu hc
    have h2 := authenticateStudent_user_null w email password (by rw [h1]; rfl)
    rw [h1] at h2
    refine ⟨by rw [h1]; rfl, by rw [h2], ?_⟩
    intro payload secret options hm
    rw [h2] at hm
    simp [userTrace] at hm

/-- C1, evaluated: with the right password the example store yields the match
the token rests on; with a wrong password both functions return `null` and
nothing is signed. -/
theorem token_only_after_password_match_witness :
    (∃ user rest,
      (tableWorld [annUser] [annStudent]).knexWhere USER_TABLE "ann@smu.edu"
        = Except.ok (user :: rest) ∧
      (tableWorld [annUser] [annStudent]).bcryptCompare "pw" (Row.get user "password")
        = Except.ok true) ∧
    ((User.authenticateUser (tableWorld [annUser] [annStudent]) "ann@smu.edu" "bad").outcome
        = Except.ok none ∧
      (authenticateStudent (tableWorld [annUser] [annStudent]) "ann@smu.edu" "bad").outcome
        = Except.ok none ∧
      ∀ payload secret options, Event.jwtSign payload secret options ∉
        (authenticateStudent (tableWorld [annUser] [annStudent]) "ann@smu.edu" "bad").trace) :=
  ⟨(token_only_after_password_match (tableWorld [annUser] [annStudent]) "ann@smu.edu" "pw").1
      "jwt[id,email,name,claims]mysupercoolsecret" rfl,
   (token_only_after_password_match (tableWorld [annUser] [annStudent]) "ann@smu.edu" "bad").2.2
      annUser [] rfl rfl⟩

/-- C2: for an email with no credential record (the lookup answers with the
empty list) `authenticateUser` returns `null` and its run ends with the
`console.error` call, so `bcrypt.compare` is never called; `authenticateStudent`
returns the same `null`, makes no further call, and so performs no profile
lookup and no signing. -/
theorem no_credential_record_is_terminal (w : World) (email password : String)
    (h : w.knexWhere USER_TABLE email = Except.ok []) :
    User.authenticateUser w email password = ⟨noUserTrace email, Except.ok none⟩ ∧
    (∀ data hash, Event.bcryptCompare data hash ∉ (User.authenticateUser w email password).trace) ∧
    authenticateStudent w email password = ⟨noUserTrace email, Except.ok none⟩ ∧
    (∀ data hash, Event.bcryptCompare data hash ∉ (authenticateStudent w email password).trace) ∧
    (∀ e, Event.knexWhere STUDENTS_TABLE e ∉ (authenticateStudent w email password).trace) ∧
    (∀ payload secret options,
      Event.jwtSign payload secret options ∉ (authenticateStudent w email password).trace) := by
  have h1 := authenticateUser_no_user w email password h
  have h2 := authenticateStudent_user_null w email password (by rw [h1])
  rw [h1] at h2
  refine ⟨h1, ?_, h2, ?_, ?_, ?_⟩
  · intro data hash hm; rw [h1] at hm; simp [noUserTrace] at hm
  · intro data hash hm; rw [h2] at hm; simp [noUserTrace] at hm
  · intro e hm; rw [h2] at hm
    simp [noUserTrace, USER_TABLE, STUDENTS_TABLE] at hm
  · intro payload secret options hm; rw [h2] at hm; simp [noUserTrace] at hm

/-- C2, evaluated on the example store for an unknown email. -/
theorem no_credential_record_is_terminal_witness :
    (authenticateStudent (tableWorld [annUser] [annStudent]) "bob@smu.edu" "pw").outcome
      = Except.ok none ∧
    (authenticateStudent (tableWorld [annUser] [annStudent]) "bob@smu.edu" "pw").trace
      = [Event.knexWhere "users" "bob@smu.edu",
         Event.consoleLog "Results of users query" [],
         Event.consoleError "No users matched the email: bob@smu.edu"] :=
  have h := (no_credential_record_is_terminal (tableWorld [annUser] [annStudent])
    "bob@smu.edu" "pw" rfl).2.2.1
  ⟨by rw [h], by rw [h]; decide⟩

/-- C3: for a valid (email, matching password) pair with an existing student
profile, `authenticateStudent` calls `jwt.sign` on the claims set built from the
first profile record and returns what it returns; that claims set holds every
field of the profile record other than one named `claims`, hence each of the
columns `id`, `email`, `name`, with its stored value, and it holds the tag
`claims: ['student']`. -/
theorem token_carries_profile_and_role (w : World) (email password : String)
    (user : Row) (rest : List Row) (profile : Row) (more : List Row)
    (hu : w.knexWhere USER_TABLE email = Except.ok (user :: rest))
    (hc : w.bcryptCompare password (Row.get user "password") = Except.ok true)
    (hs : w.knexWhere STUDENTS_TABLE email = Except.ok (profile :: more)) :
    Event.jwtSign (claimsPayload (profile :: more)) accessTokenSecret none ∈
      (authenticateStudent w email password).trace ∧
    (authenticateStudent w email password).outcome =
      Except.map some (w.jwtSign (claimsPayload (profile :: more)) accessTokenSecret none) ∧
    (∀ k v, (k, v) ∈ profile → k ≠ "claims" → (k, v) ∈ claimsPayload (profile :: more)) ∧
    (∀ k ∈ studentsColumns, ∀ v, (k, v) ∈ profile → (k, v) ∈ claimsPayload (profile :: more)) ∧
    (∀ k ∈ studentsColumns, Row.get (claimsPayload (profile :: more)) k = Row.get profile k) ∧
    ("claims", JSVal.arr ["student"]) ∈ claimsPayload (profile :: more) ∧
    Row.get (claimsPayload (profile :: more)) "claims" = JSVal.arr ["student"] := by
  have h1 := authenticateUser_compared w email password user rest true hu hc
  have h2 := authenticateStudent_signs w email password _ (profile :: more)
    (by rw [h1]; rfl) hs
  have hcol : ∀ k ∈ studentsColumns, k ≠ "claims" := by
    intro k hk
    simp only [studentsColumns, List.mem_cons, List.mem_singleton, List.not_mem_nil,
      or_false] at hk
    rcases hk with rfl | rfl | rfl <;> decide
  refine ⟨?_, by rw [h2], ?_, ?_, ?_, ?_, ?_⟩
  · rw [h2]; simp [studentTrace]
  · intro k v hm hk
    exact Row.mem_set_other profile "claims" k _ v hk hm
  · intro k hk v hm
    exact Row.mem_set_other profile "claims" k _ v (hcol k hk) hm
  · intro k hk
    exact Row.get_set_other profile "claims" k _ (hcol k hk)
  · exact Row.mem_set_self profile "claims" _
  · exact Row.get_set_self profile "claims" _

/-- C3, evaluated on the example store: the signed claims are the three profile
fields and the tag. -/
theorem token_carries_profile_and_role_witness :
    Event.jwtSign
        [("id", JSVal.num 7), ("email", JSVal.str "ann@smu.edu"), ("name", JSVal.str "Ann"),
         ("claims", JSVal.arr ["student"])]
        "mysupercoolsecret" none ∈
      (authenticateStudent (tableWorld [annUser] [annStudent]) "ann@smu.edu" "pw").trace ∧
    (authenticateStudent (tableWorld [annUser] [annStudent]) "ann@smu.edu" "pw").outcome =
      Except.ok (some "jwt[id,email,name,claims]mysupercoolsecret") :=
  have h := token_carries_profile_and_role (tableWorld [annUser] [annStudent])
    "ann@smu.edu" "pw" annUser [] annStudent [] rfl rfl rfl
  ⟨h.1, h.2.1⟩

/-- C4, the claim as stated fails: in a store that follows the schema, whose
profile record for Ann has as `name` the text of her stored hash, the call
succeeds and one of the values of the signed claims set is the stored hash. -/
theorem claims_value_can_equal_stored_hash :
    (tableWorld [annUser] [hashNamedStudent]).knexWhere USER_TABLE "ann@smu.edu"
      = Except.ok [annUser] ∧
    IsStudentRow hashNamedStudent ∧
    (authenticateStudent (tableWorld [annUser] [hashNamedStudent]) "ann@smu.edu" "pw").outcome
      = Except.ok (some "jwt[id,email,name,claims]mysupercoolsecret") ∧
    Event.jwtSign
        [("id", JSVal.num 8), ("email", JSVal.str "ann@smu.edu"), ("name", JSVal.str "hash:pw"),
         ("claims", JSVal.arr ["student"])]
        accessTokenSecret none ∈
      (authenticateStudent (tableWorld [annUser] [hashNamedStudent]) "ann@smu.edu" "pw").trace ∧
    Row.get annUser "password" ∈
      Row.values [("id", JSVal.num 8), ("email", JSVal.str "ann@smu.edu"),
        ("name", JSVal.str "hash:pw"), ("claims", JSVal.arr ["student"])] := by
  refine ⟨rfl, ?_, rfl, by decide, by decide⟩
  intro k hk
  simp only [Row.keys, hashNamedStudent, List.map_cons, List.map_nil, List.mem_cons,
    List.mem_singleton, List.not_mem_nil, or_false] at hk
  rcases hk with rfl | rfl | rfl <;> decide

/-- C4, amended: the claims set passed to `jwt.sign` is built from the profile
lookup alone and nothing is read from the credential record: it is
`{ ...students[0], claims: ['student'] }`, each of its values is the tag
`['student']` or a value of the first profile record, and when the profile
records have only the columns of the students table it has no `password`
field. -/
theorem claims_come_from_profile_only (w : World) (email password : String)
    (payload : Row) (secret : String) (options : Option Row)
    (hm : Event.jwtSign payload secret options ∈ (authenticateStudent w email password).trace) :
    ∃ students, w.knexWhere STUDENTS_TABLE email = Except.ok students ∧
      payload = claimsPayload students ∧
      (∀ v ∈ Row.values payload,
        v = JSVal.arr ["student"] ∨ v ∈ Row.values (spread students.head?)) ∧
      ((∀ r ∈ students, IsStudentRow r) → Row.has payload "password" = false) := by
  obtain ⟨user, rest, students, _, _, hs, hp, _, _⟩ :=
    sign_event_inv w email password payload secret options hm
  refine ⟨students, hs, hp, ?_, ?_⟩
  · intro v hv
    obtain ⟨q, hq, hqv⟩ := List.mem_map.mp hv
    rw [hp] at hq
    rcases Row.mem_set _ _ _ q hq with h1 | h1
    · left; rw [← hqv, h1]
    · right; exact List.mem_map.mpr ⟨q, h1, hqv⟩
  · intro hrows
    cases hh : Row.has payload "password" with
    | false => rfl
    | true =>
      exfalso
      rw [Row.has_eq_true_iff, hp] at hh
      rcases (Row.mem_keys_set _ _ _ _).mp hh with h1 | h1
      · exact absurd h1 (by decide)
      · exact absurd (Row.keys_spread_head students "password" hrows h1) (by decide)

/-- C4 amended, evaluated on the example store: the signed claims are the
claims set of the profile lookup. -/
theorem claims_come_from_profile_only_witness :
    ∃ students,
      (tableWorld [annUser] [annStudent]).knexWhere STUDENTS_TABLE "ann@smu.edu"
        = Except.ok students ∧
      [("id", JSVal.num 7), ("email", JSVal.str "ann@smu.edu"), ("name", JSVal.str "Ann"),
        ("claims", JSVal.arr ["student"])] = claimsPayload students ∧
      (∀ v ∈ Row.values [("id", JSVal.num 7), ("email", JSVal.str "ann@smu.edu"),
          ("name", JSVal.str "Ann"), ("claims", JSVal.arr ["student"])],
        v = JSVal.arr ["student"] ∨ v ∈ Row.values (spread students.head?)) ∧
      ((∀ r ∈ students, IsStudentRow r) →
        Row.has [("id", JSVal.num 7), ("email", JSVal.str "ann@smu.edu"),
          ("name", JSVal.str "Ann"), ("claims", JSVal.arr ["student"])] "password" = false) :=
  claims_come_from_profile_only (tableWorld [annUser] [annStudent]) "ann@smu.edu" "pw"
    [("id", JSVal.num 7), ("email", JSVal.str "ann@smu.edu"), ("name", JSVal.str "Ann"),
      ("claims", JSVal.arr ["student"])] "mysupercoolsecret" none (by decide)

/-- C5, the claim as stated fails: on a store whose profile record has a
fourth property `ssn`, the signed claims set has the key `ssn`; and in general
no fixed list of keys bounds the keys of the signed claims set, since the keys
of the profile record are copied whatever they are. -/
theorem no_fixed_allow_list :
    Event.jwtSign
        [("id", JSVal.num 9), ("email", JSVal.str "ann@smu.edu"), ("name", JSVal.str "Ann"),
         ("ssn", JSVal.str "078-05-1120"), ("claims", JSVal.arr ["student"])]
        accessTokenSecret none ∈
      (authenticateStudent (tableWorld [annUser] [ssnStudent]) "ann@smu.edu" "pw").trace ∧
    ¬ ∃ allow : List String,
      ∀ (w : World) (email password : String) (payload : Row) (secret : String)
        (options : Option Row),
        Event.jwtSign payload secret options ∈ (authenticateStudent w email password).trace →
        ∀ k ∈ Row.keys payload, k ∈ allow ∨ k = "claims" := by
  refine ⟨by decide, ?_⟩
  rintro ⟨allow, h⟩
  have hu := authenticateUser_compared (extraFieldWorld (freshKey ("claims" :: allow)))
    "ann@smu.edu" "pw" annUser [] true rfl rfl
  have hrun := authenticateStudent_signs (extraFieldWorld (freshKey ("claims" :: allow)))
    "ann@smu.edu" "pw" _ [[(freshKey ("claims" :: allow), JSVal.num 0)]]
    (by rw [hu]; rfl) rfl
  have hm : Event.jwtSign (claimsPayload [[(freshKey ("claims" :: allow), JSVal.num 0)]])
      accessTokenSecret none ∈
      (authenticateStudent (extraFieldWorld (freshKey ("claims" :: allow)))
        "ann@smu.edu" "pw").trace := by
    rw [hrun]; simp [studentTrace]
  have hk : freshKey ("claims" :: allow) ∈
      Row.keys (claimsPayload [[(freshKey ("claims" :: allow), JSVal.num 0)]]) := by
    unfold claimsPayload
    rw [Row.mem_keys_set]
    right
    simp [spread, Row.keys]
  have hfresh := freshKey_not_mem ("claims" :: allow)
  rcases h _ _ _ _ _ _ hm _ hk with h1 | h1
  · exact hfresh (List.mem_cons_of_mem _ h1)
  · apply hfresh
    rw [h1]
    exact List.mem_cons_self _ _

/-- C5, amended: the claims set is the raw first profile record with the tag
added, not a selection of allow-listed fields: the keys of the claims set
passed to `jwt.sign` are exactly the keys of that record and `claims`.  They lie
within `id`, `email`, `name` and `claims` when every profile record has only the
columns of the students table. -/
theorem claims_keys_are_raw_profile_keys (w : World) (email password : String)
    (payload : Row) (secret : String) (options : Option Row)
    (hm : Event.jwtSign payload secret options ∈ (authenticateStudent w email password).trace) :
    ∃ students, w.knexWhere STUDENTS_TABLE email = Except.ok students ∧
      (∀ k, k ∈ Row.keys payload ↔ k = "claims" ∨ k ∈ Row.keys (spread students.head?)) ∧
      ((∀ r ∈ students, IsStudentRow r) →
        ∀ k ∈ Row.keys payload, k ∈ studentsColumns ∨ k = "claims") := by
  obtain ⟨user, rest, students, _, _, hs, hp, _, _⟩ :=
    sign_event_inv w email password payload secret options hm
  have hkeys : ∀ k, k ∈ Row.keys payload ↔ k = "claims" ∨ k ∈ Row.keys (spread students.head?) := by
    intro k
    rw [hp]
    exact Row.mem_keys_set _ _ _ _
  refine ⟨students, hs, hkeys, ?_⟩
  intro hrows k hk
  rcases (hkeys k).mp hk with h1 | h1
  · exact Or.inr h1
  · exact Or.inl (Row.keys_spread_head students k hrows h1)

/-- C5 amended, evaluated on the store with the `ssn` property: the keys of the
signed claims set are those of the raw profile record and `claims`. -/
theorem claims_keys_are_raw_profile_keys_witness :
    ∃ students,
      (tableWorld [annUser] [ssnStudent]).knexWhere STUDENTS_TABLE "ann@smu.edu"
        = Except.ok students ∧
      (∀ k, k ∈ Row.keys (claimsPayload [ssnStudent]) ↔
        k = "claims" ∨ k ∈ Row.keys (spread students.head?)) ∧
      ((∀ r ∈ students, IsStudentRow r) →
        ∀ k ∈ Row.keys (claimsPayload [ssnStudent]), k ∈ studentsColumns ∨ k = "claims") :=
  claims_keys_are_raw_profile_keys (tableWorld [annUser] [ssnStudent]) "ann@smu.edu" "pw"
    (claimsPayload [ssnStudent]) "mysupercoolsecret" none (by decide)

/-- C6, the claim as stated fails: for a valid credential with no profile row
`authenticateStudent` goes on to `jwt.sign` with the claims set
`{ claims: ['student'] }` and returns the token. -/
theorem missing_profile_still_signs :
    (tableWorld [annUser] []).knexWhere USER_TABLE "ann@smu.edu" = Except.ok [annUser] ∧
    (tableWorld [annUser] []).bcryptCompare "pw" (Row.get annUser "password") = Except.ok true ∧
    (tableWorld [annUser] []).knexWhere STUDENTS_TABLE "ann@smu.edu" = Except.ok [] ∧
    (authenticateStudent (tableWorld [annUser] []) "ann@smu.edu" "pw").outcome
      = Except.ok (some "jwt[claims]mysupercoolsecret") ∧
    (authenticateStudent (tableWorld [annUser] []) "ann@smu.edu" "pw").trace
      = [Event.knexWhere "users" "ann@smu.edu",
         Event.consoleLog "Results of users query" [annUser],
         Event.bcryptCompare "pw" (JSVal.str "hash:pw"),
         Event.knexWhere "students" "ann@smu.edu",
         Event.consoleLog "Students" [],
         Event.jwtSign [("claims", JSVal.arr ["student"])] "mysupercoolsecret" none] :=
  ⟨rfl, rfl, rfl, rfl, by decide⟩

/-- C6, amended: `null` is the only failure value and stands for invalid
credentials alone.  `authenticateStudent` returns `null` exactly when the
credential lookup is empty or the comparison answers `false`; so for a valid
credential with no profile row its result is not the invalid-credentials
result. -/
theorem null_only_for_invalid_credentials (w : World) (email password : String) :
    ((authenticateStudent w email password).outcome = Except.ok none ↔
      (w.knexWhere USER_TABLE email = Except.ok [] ∨
        ∃ user rest, w.knexWhere USER_TABLE email = Except.ok (user :: rest) ∧
          w.bcryptCompare password (Row.get user "password") = Except.ok false)) ∧
    (∀ user rest, w.knexWhere USER_TABLE email = Except.ok (user :: rest) →
      w.bcryptCompare password (Row.get user "password") = Except.ok true →
      w.knexWhere STUDENTS_TABLE email = Except.ok [] →
      (authenticateStudent w email password).outcome ≠ Except.ok none) := by
  have key : (authenticateStudent w email password).outcome = Except.ok none ↔
      (w.knexWhere USER_TABLE email = Except.ok [] ∨
        ∃ user rest, w.knexWhere USER_TABLE email = Except.ok (user :: rest) ∧
          w.bcryptCompare password (Row.get user "password") = Except.ok false) := by
    rcases authenticateStudent_run w email password with
      ⟨e, hu, h⟩ | ⟨hu, h⟩ | ⟨user, rest, e, hu, hc, h⟩ | ⟨user, rest, hu, hc, h⟩ |
      ⟨user, rest, e, hu, hc, _, h⟩ | ⟨user, rest, students, hu, hc, _, h⟩
    · rw [h, hu]; simp
    · rw [h, hu]; simp
    · rw [h, hu]; simp [hc]
    · rw [h, hu]; simp [hc]
    · rw [h, hu]; simp [hc]
    · rw [h, hu]
      cases w.jwtSign (claimsPayload students) accessTokenSecret none <;> simp [Except.map, hc]
  refine ⟨key, ?_⟩
  intro user rest hu hc _ hnull
  rcases key.mp hnull with h1 | ⟨user2, rest2, h1, h2⟩
  · rw [hu] at h1; cases h1
  · rw [hu] at h1
    injection h1 with h1
    injection h1 with h3 _
    rw [← h3, hc] at h2
    cases h2

/-- C6 amended, evaluated: on the example store without profile rows the
result for the valid credential is not `null`. -/
theorem null_only_for_invalid_credentials_witness :
    (authenticateStudent (tableWorld [annUser] []) "ann@smu.edu" "pw").outcome
      ≠ Except.ok none :=
  (null_only_for_invalid_credentials (tableWorld [annUser] []) "ann@smu.edu" "pw").2
    annUser [] rfl rfl rfl

/-- C7, the claim as stated fails: when the database cannot be reached the
credential lookup rejects, and `authenticateStudent` rejects with that very
error after the single query; it does not complete with a failure value. -/
theorem store_fault_crosses_the_boundary :
    (authenticateStudent downWorld "ann@smu.edu" "pw").outcome
      = Except.error ⟨"connect ECONNREFUSED"⟩ ∧
    (authenticateStudent downWorld "ann@smu.edu" "pw").trace
      = [Event.knexWhere "users" "ann@smu.edu"] :=
  ⟨rfl, by decide⟩

/-- C7, amended: `authenticateStudent` has no exception handling.  When the
credential lookup, the hash comparison, the profile lookup or the signing step
throws or rejects with an error, `authenticateStudent` rejects with that same
error; and it rejects in no other case. -/
theorem errors_propagate (w : World) (email password : String) (e : JSError) :
    (authenticateStudent w email password).outcome = Except.error e ↔
      (w.knexWhere USER_TABLE email = Except.error e ∨
       (∃ user rest, w.knexWhere USER_TABLE email = Except.ok (user :: rest) ∧
          w.bcryptCompare password (Row.get user "password") = Except.error e) ∨
       (∃ user rest, w.knexWhere USER_TABLE email = Except.ok (user :: rest) ∧
          w.bcryptCompare password (Row.get user "password") = Except.ok true ∧
          w.knexWhere STUDENTS_TABLE email = Except.error e) ∨
       (∃ user rest students, w.knexWhere USER_TABLE email = Except.ok (user :: rest) ∧
          w.bcryptCompare password (Row.get user "password") = Except.ok true ∧
          w.knexWhere STUDENTS_TABLE email = Except.ok students ∧
          w.jwtSign (claimsPayload students) accessTokenSecret none = Except.error e)) := by
  rcases authenticateStudent_run w email password with
    ⟨e1, hu, h⟩ | ⟨hu, h⟩ | ⟨user, rest, e1, hu, hc, h⟩ | ⟨user, rest, hu, hc, h⟩ |
    ⟨user, rest, e1, hu, hc, hs, h⟩ | ⟨user, rest, students, hu, hc, hs, h⟩
  · rw [h, hu]; simp
  · rw [h, hu]; simp
  · rw [h, hu]; simp [hc]
  · rw [h, hu]; simp [hc]
  · rw [h, hu]; simp [hc, hs]
  · rw [h, hu]
    cases hj : w.jwtSign (claimsPayload students) accessTokenSecret none <;>
      simp [Except.map, hc, hs, hj]

/-- C7 amended, evaluated: the rejected query of the unreachable database is
the rejection of `authenticateStudent`. -/
theorem errors_propagate_witness :
    (authenticateStudent downWorld "ann@smu.edu" "pw").outcome
      = Except.error ⟨"connect ECONNREFUSED"⟩ :=
  (errors_propagate downWorld "ann@smu.edu" "pw" ⟨"connect ECONNREFUSED"⟩).mpr (Or.inl rfl)

/-- C8: the signing key is never derived from request input.  In any two calls
of `authenticateStudent`, with arbitrary emails, passwords and worlds, the
secret passed to `jwt.sign` is the same value, the constant
`accessTokenSecret`. -/
theorem signing_secret_is_constant (w1 w2 : World) (email1 password1 email2 password2 : String)
    (payload1 payload2 : Row) (secret1 secret2 : String) (options1 options2 : Option Row)
    (h1 : Event.jwtSign payload1 secret1 options1 ∈
      (authenticateStudent w1 email1 password1).trace)
    (h2 : Event.jwtSign payload2 secret2 options2 ∈
      (authenticateStudent w2 email2 password2).trace) :
    secret1 = secret2 ∧ secret1 = accessTokenSecret := by
  obtain ⟨_, _, _, _, _, _, _, hs1, _⟩ :=
    sign_event_inv w1 email1 password1 payload1 secret1 options1 h1
  obtain ⟨_, _, _, _, _, _, _, hs2, _⟩ :=
    sign_event_inv w2 email2 password2 payload2 secret2 options2 h2
  exact ⟨by rw [hs1, hs2], hs1⟩

/-- C8, evaluated on two calls with different inputs and stores: both reach
`jwt.sign`, and with the same secret. -/
theorem signing_secret_is_constant_witness :
    Event.jwtSign (claimsPayload [annStudent]) "mysupercoolsecret" none ∈
      (authenticateStudent (tableWorld [annUser] [annStudent]) "ann@smu.edu" "pw").trace ∧
    Event.jwtSign (claimsPayload [[("k", JSVal.num 0)]]) "mysupercoolsecret" none ∈
      (authenticateStudent (extraFieldWorld "k") "zed@smu.edu" "other").trace ∧
    "mysupercoolsecret" = accessTokenSecret :=
  ⟨by decide, by decide,
   (signing_secret_is_constant (tableWorld [annUser] [annStudent]) (extraFieldWorld "k")
      "ann@smu.edu" "pw" "zed@smu.edu" "other"
      (claimsPayload [annStudent]) (claimsPayload [[("k", JSVal.num 0)]])
      "mysupercoolsecret" "mysupercoolsecret" none none (by decide) (by decide)).2⟩

/-- C9, the claim as stated fails: on the successful call of the example store
`jwt.sign` is called with the claims set and the secret only; there is no third
argument, so no expiry is given. -/
theorem token_signed_without_expiry :
    (authenticateStudent (tableWorld [annUser] [annStudent]) "ann@smu.edu" "pw").outcome
      = Except.ok (some "jwt[id,email,name,claims]mysupercoolsecret") ∧
    (authenticateStudent (tableWorld [annUser] [annStudent]) "ann@smu.edu" "pw").trace
      = [Event.knexWhere "users" "ann@smu.edu",
         Event.consoleLog "Results of users query" [annUser],
         Event.bcryptCompare "pw" (JSVal.str "hash:pw"),
         Event.knexWhere "students" "ann@smu.edu",
         Event.consoleLog "Students" [annStudent],
         Event.jwtSign
           [("id", JSVal.num 7), ("email", JSVal.str "ann@smu.edu"), ("name", JSVal.str "Ann"),
            ("claims", JSVal.arr ["student"])]
           "mysupercoolsecret" none] :=
  ⟨rfl, by decide⟩

/-- C9, amended: every token issued by `authenticateStudent` is signed by a call
`jwt.sign(claims, accessTokenSecret)` with two arguments: on every path the call
to the signing function carries no options argument, hence no expiry
argument. -/
theorem sign_call_has_no_options (w : World) (email password : String)
    (payload : Row) (secret : String) (options : Option Row)
    (hm : Event.jwtSign payload secret options ∈ (authenticateStudent w email password).trace) :
    options = none ∧ secret = accessTokenSecret := by
  obtain ⟨_, _, _, _, _, _, _, hs, ho⟩ :=
    sign_event_inv w email password payload secret options hm
  exact ⟨ho, hs⟩

/-- C9 amended, evaluated on the successful call of the example store. -/
theorem sign_call_has_no_options_witness :
    Event.jwtSign (claimsPayload [annStudent]) "mysupercoolsecret" none ∈
      (authenticateStudent (tableWorld [annUser] [annStudent]) "ann@smu.edu" "pw").trace ∧
    (none : Option Row) = none ∧ "mysupercoolsecret" = accessTokenSecret :=
  ⟨by decide,
   sign_call_has_no_options (tableWorld [annUser] [annStudent]) "ann@smu.edu" "pw"
    (claimsPayload [annStudent]) "mysupercoolsecret" none (by decide)⟩

/-- C10: the profile lookup happens only on success of password verification.
In every run of `authenticateStudent` the steps taken are an initial segment of
credential lookup, password verification, profile lookup, sign, in that order;
and if the students table is queried at all, the credential lookup returned a
record and the comparison answered `true`. -/
theorem profile_lookup_only_after_verification (w : World) (email password : String) :
    steps (authenticateStudent w email password).trace <+:
      [Step.credentialLookup, Step.passwordVerify, Step.profileLookup, Step.sign] ∧
    ((Step.profileLookup ∈ steps (authenticateStudent w email password).trace ∨
        ∃ e, Event.knexWhere STUDENTS_TABLE e ∈ (authenticateStudent w email password).trace) →
      ∃ user rest, w.knexWhere USER_TABLE email = Except.ok (user :: rest) ∧
        w.bcryptCompare password (Row.get user "password") = Except.ok true) := by
  rcases authenticateStudent_run w email password with
    ⟨e1, hu, h⟩ | ⟨hu, h⟩ | ⟨user, rest, e1, hu, hc, h⟩ | ⟨user, rest, hu, hc, h⟩ |
    ⟨user, rest, e1, hu, hc, hs, h⟩ | ⟨user, rest, students, hu, hc, hs, h⟩
  · rw [h]
    refine ⟨by simp [steps, stepOf, USER_TABLE, STUDENTS_TABLE], ?_⟩
    simp [steps, stepOf, USER_TABLE, STUDENTS_TABLE]
  · rw [h]
    refine ⟨by simp [steps, stepOf, noUserTrace, USER_TABLE, STUDENTS_TABLE], ?_⟩
    simp [steps, stepOf, noUserTrace, USER_TABLE, STUDENTS_TABLE]
  · rw [h]
    refine ⟨by simp [steps, stepOf, userTrace, USER_TABLE, STUDENTS_TABLE], ?_⟩
    simp [steps, stepOf, userTrace, USER_TABLE, STUDENTS_TABLE]
  · rw [h]
    refine ⟨by simp [steps, stepOf, userTrace, USER_TABLE, STUDENTS_TABLE], ?_⟩
    simp [steps, stepOf, userTrace, USER_TABLE, STUDENTS_TABLE]
  · exact ⟨by rw [h]; simp [steps, stepOf, userTrace, USER_TABLE, STUDENTS_TABLE],
      fun _ => ⟨user, rest, hu, hc⟩⟩
  · exact ⟨by rw [h]; simp [steps, stepOf, userTrace, studentTrace, USER_TABLE, STUDENTS_TABLE],
      fun _ => ⟨user, rest, hu, hc⟩⟩

/-- C10, evaluated on the successful call of the example store. -/
theorem profile_lookup_only_after_verification_witness :
    ∃ user rest,
      (tableWorld [annUser] [annStudent]).knexWhere USER_TABLE "ann@smu.edu"
        = Except.ok (user :: rest) ∧
      (tableWorld [annUser] [annStudent]).bcryptCompare "pw" (Row.get user "password")
        = Except.ok true :=
  (profile_lookup_only_after_verification (tableWorld [annUser] [annStudent])
    "ann@smu.edu" "pw").2 (Or.inl (by decide))

/-! ## Interleaved calls: lemmas -/

theorem Call.step_module (w : World) (m : ModuleState) (c : Call) :
    (Call.step w m c).2 = m := by
  unfold Call.step
  split
  · rfl
  · split <;> rfl
  · split <;> rfl
  · split <;> rfl
  · rfl

theorem Call.step_finished (w : World) (m : ModuleState) (c : Call)
    (r : Except JSError (Option String)) (h : c.pc = Pc.finished r) :
    (Call.step w m c).1 = c := by
  unfold Call.step
  rw [h]

theorem Call.stepN_succ (w : World) (m : ModuleState) (n : Nat) (c : Call) :
    Call.stepN w m (n + 1) c = Call.stepN w m n (Call.step w m c).1 := rfl

theorem Call.stepN_finished (w : World) (m : ModuleState) (n : Nat) (c : Call)
    (r : Except JSError (Option String)) (h : c.pc = Pc.finished r) :
    Call.stepN w m n c = c := by
  induction n with
  | zero => rfl
  | succ k ih =>
    rw [Call.stepN_succ, Call.step_finished w m c r h]
    exact ih

theorem Call.stepN_add (w : World) (m : ModuleState) (n k : Nat) (c : Call) :
    Call.stepN w m (n + k) c = Call.stepN w m k (Call.stepN w m n c) := by
  induction n generalizing c with
  | zero => simp [Call.stepN]
  | succ j ih =>
    rw [Nat.succ_add, Call.stepN_succ, Call.stepN_succ]
    exact ih _

theorem Call.stepN_succ_right (w : World) (m : ModuleState) (n : Nat) (c : Call) :
    Call.stepN w m (n + 1) c = (Call.step w m (Call.stepN w m n c)).1 := by
  rw [Call.stepN_add]
  rfl

/-- Four resumptions settle a call, with the outcome and the library calls of
`authenticateStudent`. -/
theorem Call.stepN_four (w : World) (email password : String) :
    Call.stepN w ModuleState.initial 4 (Call.start email password) =
      { email := email, password := password,
        pc := Pc.finished (authenticateStudent w email password).outcome,
        trace := (authenticateStudent w email password).trace } := by
  rcases authenticateStudent_run w email password with
    ⟨e, hu, h⟩ | ⟨hu, h⟩ | ⟨user, rest, e, hu, hc, h⟩ | ⟨user, rest, hu, hc, h⟩ |
    ⟨user, rest, e, hu, hc, hs, h⟩ | ⟨user, rest, students, hu, hc, hs, h⟩
  · rw [h]
    simp [Call.stepN, Call.step, Call.start, ModuleState.initial, hu]
  · rw [h]
    simp [Call.stepN, Call.step, Call.start, ModuleState.initial, hu, noUserTrace]
  · rw [h]
    simp [Call.stepN, Call.step, Call.start, ModuleState.initial, hu, hc, userTrace]
  · rw [h]
    simp [Call.stepN, Call.step, Call.start, ModuleState.initial, hu, hc, userTrace]
  · rw [h]
    simp [Call.stepN, Call.step, Call.start, ModuleState.initial, hu, hc, hs, userTrace]
  · rw [h]
    simp [Call.stepN, Call.step, Call.start, ModuleState.initial, hu, hc, hs, userTrace,
      studentTrace]

theorem Call.stepN_settled (w : World) (email password : String) (n : Nat) (h : 4 ≤ n) :
    Call.stepN w ModuleState.initial n (Call.start email password) =
      { email := email, password := password,
        pc := Pc.finished (authenticateStudent w email password).outcome,
        trace := (authenticateStudent w email password).trace } := by
  obtain ⟨k, rfl⟩ := Nat.exists_eq_add_of_le h
  rw [Call.stepN_add, Call.stepN_four]
  exact Call.stepN_finished w _ k _ _ rfl

theorem Call.result_stepN (w : World) (email password : String) (n : Nat)
    (r : Except JSError (Option String))
    (h : (Call.stepN w ModuleState.initial n (Call.start email password)).result = some r) :
    r = (authenticateStudent w email password).outcome := by
  have hpc : (Call.stepN w ModuleState.initial n (Call.start email password)).pc
      = Pc.finished r := by
    unfold Call.result at h
    split at h
    · rename_i o ho
      injection h with h
      rw [ho, h]
    · cases h
  have h1 := Call.stepN_finished w ModuleState.initial 4 _ r hpc
  rw [← Call.stepN_add, Call.stepN_settled w email password (n + 4) (Nat.le_add_left 4 n)] at h1
  rw [← h1] at hpc
  injection hpc with hpc
  exact hpc.symm

theorem System.run_cons (w : World) (turn : Bool) (schedule : List Bool) (s : System) :
    System.run w (turn :: schedule) s = System.run w schedule (System.step w turn s) := rfl

theorem System.run_spec (w : World) (schedule : List Bool) (s : System) :
    (System.run w schedule s).module = s.module ∧
    (System.run w schedule s).first =
      Call.stepN w s.module (schedule.count true) s.first ∧
    (System.run w schedule s).second =
      Call.stepN w s.module (schedule.count false) s.second := by
  induction schedule generalizing s with
  | nil => exact ⟨rfl, rfl, rfl⟩
  | cons turn rest ih =>
    rw [System.run_cons]
    obtain ⟨h1, h2, h3⟩ := ih (System.step w turn s)
    have hm : (System.step w turn s).module = s.module := by
      cases turn <;> simp [System.step, Call.step_module]
    rw [h1, h2, h3, hm]
    cases turn
    · refine ⟨rfl, ?_, ?_⟩
      · simp [System.step]
      · simp [System.step, List.count_cons, Call.stepN]
    · refine ⟨rfl, ?_, ?_⟩
      · simp [System.step, List.count_cons, Call.stepN]
      · simp [System.step]

/-- C11: calls of `authenticateStudent` do not interfere.  Two calls are run
interleaved at their `await` points under an arbitrary schedule, over the same
store.  At every moment each call stands exactly where it would stand had it
run alone for as many resumptions; whenever it has settled, its result is the
value of `authenticateStudent` on its own arguments and the store; four
resumptions settle it, with its own library calls only; and the module-level
state is never changed. -/
theorem calls_do_not_interfere (w : World) (schedule : List Bool)
    (email1 password1 email2 password2 : String) :
    (System.run w schedule
      ⟨ModuleState.initial, Call.start email1 password1, Call.start email2 password2⟩).module
      = ModuleState.initial ∧
    (System.run w schedule
      ⟨ModuleState.initial, Call.start email1 password1, Call.start email2 password2⟩).first
      = Call.stepN w ModuleState.initial (schedule.count true) (Call.start email1 password1) ∧
    (System.run w schedule
      ⟨ModuleState.initial, Call.start email1 password1, Call.start email2 password2⟩).second
      = Call.stepN w ModuleState.initial (schedule.count false) (Call.start email2 password2) ∧
    (∀ r, (System.run w schedule
        ⟨ModuleState.initial, Call.start email1 password1,
          Call.start email2 password2⟩).first.result = some r →
      r = (authenticateStudent w email1 password1).outcome) ∧
    (∀ r, (System.run w schedule
        ⟨ModuleState.initial, Call.start email1 password1,
          Call.start email2 password2⟩).second.result = some r →
      r = (authenticateStudent w email2 password2).outcome) ∧
    (4 ≤ schedule.count true →
      (System.run w schedule
        ⟨ModuleState.initial, Call.start email1 password1,
          Call.start email2 password2⟩).first.result
        = some (authenticateStudent w email1 password1).outcome ∧
      (System.run w schedule
        ⟨ModuleState.initial, Call.start email1 password1,
          Call.start email2 password2⟩).first.trace
        = (authenticateStudent w email1 password1).trace) ∧
    (4 ≤ schedule.count false →
      (System.run w schedule
        ⟨ModuleState.initial, Call.start email1 password1,
          Call.start email2 password2⟩).second.result
        = some (authenticateStudent w email2 password2).outcome ∧
      (System.run w schedule
        ⟨ModuleState.initial, Call.start email1 password1,
          Call.start email2 password2⟩).second.trace
        = (authenticateStudent w email2 password2).trace) := by
  obtain ⟨hm, h1, h2⟩ := System.run_spec w schedule
    ⟨ModuleState.initial, Call.start email1 password1, Call.start email2 password2⟩
  refine ⟨hm, h1, h2, ?_, ?_, ?_, ?_⟩
  · intro r hr
    rw [h1] at hr
    exact Call.result_stepN w email1 password1 _ r hr
  · intro r hr
    rw [h2] at hr
    exact Call.result_stepN w email2 password2 _ r hr
  · intro h4
    rw [h1]
    show (Call.stepN w ModuleState.initial (List.count true schedule)
        (Call.start email1 password1)).result = _ ∧
      (Call.stepN w ModuleState.initial (List.count true schedule)
        (Call.start email1 password1)).trace = _
    rw [Call.stepN_settled w email1 password1 _ h4]
    exact ⟨rfl, rfl⟩
  · intro h4
    rw [h2]
    show (Call.stepN w ModuleState.initial (List.count false schedule)
        (Call.start email2 password2)).result = _ ∧
      (Call.stepN w ModuleState.initial (List.count false schedule)
        (Call.start email2 password2)).trace = _
    rw [Call.stepN_settled w email2 password2 _ h4]
    exact ⟨rfl, rfl⟩

/-- C11, evaluated: Ann's call interleaved with a call for Bob settles with the
token it yields when run alone. -/
theorem calls_do_not_interfere_witness :
    4 ≤ [true, false, false, true, true, false, true, false].count true ∧
    (System.run (tableWorld [annUser, bobUser] [annStudent])
        [true, false, false, true, true, false, true, false]
        ⟨ModuleState.initial, Call.start "ann@smu.edu" "pw",
          Call.start "bob@smu.edu" "guess"⟩).first.result
      = some (Except.ok (some "jwt[id,email,name,claims]mysupercoolsecret")) :=
  ⟨by decide,
   ((calls_do_not_interfere (tableWorld [annUser, bobUser] [annStudent])
      [true, false, false, true, true, false, true, false]
      "ann@smu.edu" "pw" "bob@smu.edu" "guess").2.2.2.2.2.1 (by decide)).1⟩

end Auth

/-! The random generators: lemmas -/

namespace Mar30

open Auth Db

theorem has_set_iff (o : Row) (k k2 : String) (v : JSVal) :
    Row.has (Row.set o k v) k2 = true ↔ k2 = k ∨ Row.has o k2 = true := by
  rw [Row.has_eq_true_iff, Row.has_eq_true_iff]
  exact Row.mem_keys_set o k k2 v

theorem spreadOver_cons (base : Row) (p : String × JSVal) (rest : Row) :
    spreadOver base (p :: rest) = spreadOver (Row.set base p.1 p.2) rest := rfl

theorem has_spreadOver (base options : Row) (k : String) :
    Row.has (spreadOver base options) k = true ↔
      Row.has base k = true ∨ Row.has options k = true := by
  induction options generalizing base with
  | nil => simp [spreadOver, Row.has]
  | cons p rest ih =>
    obtain ⟨k1, v1⟩ := p
    rw [spreadOver_cons, ih, has_set_iff, Row.has_cons]
    by_cases h : k1 = k
    · subst h; simp
    · have h2 : ¬ k = k1 := fun e => h e.symm
      simp [h, h2]

theorem get_spreadOver_of_not_has (base options : Row) (k : String)
    (h : Row.has options k = false) :
    Row.get (spreadOver base options) k = Row.get base k := by
  induction options generalizing base with
  | nil => rfl
  | cons p rest ih =>
    obtain ⟨k1, v1⟩ := p
    rw [Row.has_cons] at h
    by_cases h1 : k1 = k
    · rw [if_pos h1] at h; cases h
    · rw [if_neg h1] at h
      rw [spreadOver_cons, ih _ h]
      exact Row.get_set_other base k1 k v1 (fun e => h1 e.symm)

theorem get_spreadOver_of_mem (base options : Row) (k : String) (v : JSVal)
    (hkeys : (Row.keys options).Nodup) (h : (k, v) ∈ options) :
    Row.get (spreadOver base options) k = v := by
  induction options generalizing base with
  | nil => cases h
  | cons p rest ih =>
    obtain ⟨k1, v1⟩ := p
    simp only [Row.keys, List.map_cons, List.nodup_cons] at hkeys
    rw [spreadOver_cons]
    rcases List.mem_cons.mp h with h1 | h1
    · injection h1 with hk hv
      subst hk; subst hv
      have hnot : Row.has rest k = false := by
        cases hh : Row.has rest k with
        | false => rfl
        | true => exact absurd ((Row.has_eq_true_iff rest k).mp hh) hkeys.1
      rw [get_spreadOver_of_not_has _ rest k hnot]
      exact Row.get_set_self base k v
    · exact ih _ hkeys.2 h1

theorem has_of_mem (options : Row) (k : String) (v : JSVal) (h : (k, v) ∈ options) :
    Row.has options k = true :=
  (Row.has_eq_true_iff options k).mpr (List.mem_map.mpr ⟨(k, v), h, rfl⟩)

end Mar30

/-! The random generators: claims -/

namespace Mar30

open Auth Db

/-- C12: overrides win in the random generators.  For every options object
(its keys distinct, as the keys of an object are) the result of the `student`,
`professor` and `user` mixin has every key of `options` with exactly the value
given there, still has the keys `id`, `name`, `email` (`email` and `password`
for `user`), and every key not named in `options` keeps the value it has in the
purely generated record. -/
theorem overrides_win (d : Draw) (options : Row) (hkeys : (Row.keys options).Nodup) :
    (∀ k v, (k, v) ∈ options →
      (Row.has (student d (some options)) k = true ∧
        Row.get (student d (some options)) k = v) ∧
      (Row.has (professor d (some options)) k = true ∧
        Row.get (professor d (some options)) k = v) ∧
      (Row.has (user d (some options)) k = true ∧
        Row.get (user d (some options)) k = v)) ∧
    (Row.has (student d (some options)) "id" = true ∧
      Row.has (student d (some options)) "name" = true ∧
      Row.has (student d (some options)) "email" = true) ∧
    (Row.has (professor d (some options)) "id" = true ∧
      Row.has (professor d (some options)) "name" = true ∧
      Row.has (professor d (some options)) "email" = true) ∧
    (Row.has (user d (some options)) "email" = true ∧
      Row.has (user d (some options)) "password" = true) ∧
    (∀ k, Row.has options k = false →
      Row.get (student d (some options)) k = Row.get (student d none) k ∧
      Row.get (professor d (some options)) k = Row.get (professor d none) k ∧
      Row.get (user d (some options)) k = Row.get (user d none) k) := by
  refine ⟨?_, ?_, ?_, ?_, ?_⟩
  · intro k v hm
    have hh := has_of_mem options k v hm
    refine ⟨⟨?_, ?_⟩, ⟨?_, ?_⟩, ⟨?_, ?_⟩⟩
    · exact (has_spreadOver _ _ _).mpr (Or.inr hh)
    · exact get_spreadOver_of_mem _ _ k v hkeys hm
    · exact (has_spreadOver _ _ _).mpr (Or.inr hh)
    · exact get_spreadOver_of_mem _ _ k v hkeys hm
    · exact (has_spreadOver _ _ _).mpr (Or.inr hh)
    · exact get_spreadOver_of_mem _ _ k v hkeys hm
  · exact ⟨(has_spreadOver _ _ _).mpr (Or.inl rfl), (has_spreadOver _ _ _).mpr (Or.inl rfl),
      (has_spreadOver _ _ _).mpr (Or.inl rfl)⟩
  · exact ⟨(has_spreadOver _ _ _).mpr (Or.inl rfl), (has_spreadOver _ _ _).mpr (Or.inl rfl),
      (has_spreadOver _ _ _).mpr (Or.inl rfl)⟩
  · exact ⟨(has_spreadOver _ _ _).mpr (Or.inl rfl), (has_spreadOver _ _ _).mpr (Or.inl rfl)⟩
  · intro k hk
    exact ⟨get_spreadOver_of_not_has _ _ k hk, get_spreadOver_of_not_has _ _ k hk,
      get_spreadOver_of_not_has _ _ k hk⟩

/-- C12, evaluated on the example of the source comment: the name is the one
given, the id and the email are the generated ones. -/
theorem overrides_win_witness :
    (Row.keys [("name", JSVal.str "Christian")]).Nodup ∧
    student exampleDraw (some [("name", JSVal.str "Christian")]) =
      [("id", JSVal.str "76638115"), ("name", JSVal.str "Christian"),
       ("email", JSVal.str "lubmo@ninrezgec.vi")] ∧
    Row.get (student exampleDraw (some [("name", JSVal.str "Christian")])) "name"
      = JSVal.str "Christian" ∧
    Row.get (student exampleDraw (some [("name", JSVal.str "Christian")])) "email"
      = Row.get (student exampleDraw none) "email" :=
  ⟨by decide, by decide,
   ((overrides_win exampleDraw [("name", JSVal.str "Christian")] (by decide)).1
      "name" (JSVal.str "Christian") (by decide)).1.2,
   ((overrides_win exampleDraw [("name", JSVal.str "Christian")] (by decide)).2.2.2.2
      "email" (by decide)).1⟩

end Mar30

/-! The seeds: lemmas -/

namespace Mar30

open Auth Db

theorem emailOf_student (d : Draw) (e : JSVal) :
    emailOf (student d (some [("email", e)])) = e :=
  get_spreadOver_of_mem _ [("email", e)] "email" e (by simp [Row.keys]) (by simp)

theorem emailOf_professor (d : Draw) (e : JSVal) :
    emailOf (professor d (some [("email", e)])) = e :=
  get_spreadOver_of_mem _ [("email", e)] "email" e (by simp [Row.keys]) (by simp)

theorem map_emailOf_mapWithEmail (mixin : Draw → Option Row → Row)
    (hmixin : ∀ d e, emailOf (mixin d (some [("email", e)])) = e)
    (draws : Nat → Draw) (i : Nat) (users : List Row) :
    (mapWithEmail mixin draws i users).map emailOf = users.map emailOf := by
  induction users generalizing i with
  | nil => rfl
  | cons user rest ih =>
    simp only [mapWithEmail, List.map_cons, hmixin, ih]

theorem length_mapWithEmail (mixin : Draw → Option Row → Row) (draws : Nat → Draw) (i : Nat)
    (users : List Row) : (mapWithEmail mixin draws i users).length = users.length := by
  induction users generalizing i with
  | nil => rfl
  | cons user rest ih => simp only [mapWithEmail, List.length_cons, ih]

theorem allReferToUsers_of_emails (db : Database) (rows : List Row)
    (h : ∀ r ∈ rows, emailOf r ∈ db.users.map emailOf) :
    db.allReferToUsers rows = true := by
  unfold Database.allReferToUsers
  rw [List.all_eq_true]
  intro r hr
  rw [List.any_eq_true]
  obtain ⟨u, hu, hue⟩ := List.mem_map.mp (h r hr)
  exact ⟨u, hu, by simp [hue]⟩

theorem emailOf_mem_of_mem_rows (mixin : Draw → Option Row → Row)
    (hmixin : ∀ d e, emailOf (mixin d (some [("email", e)])) = e)
    (draws : Nat → Draw) (i : Nat) (users : List Row) (r : Row)
    (h : r ∈ mapWithEmail mixin draws i users) : emailOf r ∈ users.map emailOf := by
  rw [← map_emailOf_mapWithEmail mixin hmixin draws i users]
  exact List.mem_map_of_mem emailOf h

end Mar30

/-! The seeds: claims -/

namespace Mar30

open Auth Db

/-- C13: the professors seed skips the users that the students seed used.  When
the users table has distinct emails (the primary key of the migration) and both
seeds read it in the same row order, both seeds succeed, every seeded student
and professor carries the email of an existing user, at most five of each are
inserted, and no email is assigned to both a student and a professor. -/
theorem seeds_use_disjoint_users (drawsS drawsP : Nat → Draw) (db : Database)
    (hdistinct : (db.users.map emailOf).Nodup) :
    Students.seed drawsS db =
      Except.ok { db with students := db.students ++ Students.rows drawsS db } ∧
    Professors.seed drawsP { db with students := db.students ++ Students.rows drawsS db } =
      Except.ok { db with students := db.students ++ Students.rows drawsS db
                          professors := db.professors ++ Professors.rows drawsP db } ∧
    (∀ s ∈ Students.rows drawsS db, ∃ u ∈ db.users, emailOf s = emailOf u) ∧
    (∀ p ∈ Professors.rows drawsP db, ∃ u ∈ db.users, emailOf p = emailOf u) ∧
    (Students.rows drawsS db).length ≤ 5 ∧
    (Professors.rows drawsP db).length ≤ 5 ∧
    (∀ s ∈ Students.rows drawsS db, ∀ p ∈ Professors.rows drawsP db,
      emailOf s ≠ emailOf p) := by
  have hS : ∀ s ∈ Students.rows drawsS db, emailOf s ∈ (db.users.take 5).map emailOf := by
    intro s hs
    have := emailOf_mem_of_mem_rows student emailOf_student drawsS 0 _ s hs
    simpa [knexUsersLimitOffset] using this
  have hP : ∀ p ∈ Professors.rows drawsP db,
      emailOf p ∈ ((db.users.drop 5).take 5).map emailOf := by
    intro p hp
    exact emailOf_mem_of_mem_rows professor emailOf_professor drawsP 0 _ p hp
  have hSu : ∀ s ∈ Students.rows drawsS db, emailOf s ∈ db.users.map emailOf := by
    intro s hs
    obtain ⟨u, hu, hue⟩ := List.mem_map.mp (hS s hs)
    exact List.mem_map.mpr ⟨u, List.mem_of_mem_take hu, hue⟩
  have hPu : ∀ p ∈ Professors.rows drawsP db, emailOf p ∈ db.users.map emailOf := by
    intro p hp
    obtain ⟨u, hu, hue⟩ := List.mem_map.mp (hP p hp)
    exact List.mem_map.mpr ⟨u, List.mem_of_mem_drop (List.mem_of_mem_take hu), hue⟩
  refine ⟨?_, ?_, ?_, ?_, ?_, ?_, ?_⟩
  · unfold Students.seed knexInsertStudents
    rw [allReferToUsers_of_emails db _ hSu]
    rfl
  · unfold Professors.seed knexInsertProfessors
    have hrows : Professors.rows drawsP
        { db with students := db.students ++ Students.rows drawsS db }
        = Professors.rows drawsP db := rfl
    rw [hrows, allReferToUsers_of_emails
      { db with students := db.students ++ Students.rows drawsS db } _ hPu]
    rfl
  · intro s hs
    obtain ⟨u, hu, hue⟩ := List.mem_map.mp (hSu s hs)
    exact ⟨u, hu, hue.symm⟩
  · intro p hp
    obtain ⟨u, hu, hue⟩ := List.mem_map.mp (hPu p hp)
    exact ⟨u, hu, hue.symm⟩
  · unfold Students.rows
    rw [length_mapWithEmail]
    simp [knexUsersLimitOffset, List.length_take]
  · unfold Professors.rows
    rw [length_mapWithEmail]
    simp only [knexUsersLimitOffset, List.length_take]
    exact Nat.min_le_left _ _
  · intro s hs p hp heq
    have h1 : emailOf s ∈ (db.users.map emailOf).take 5 := by
      rw [← List.map_take]; exact hS s hs
    have h2 : emailOf p ∈ (db.users.map emailOf).drop 5 := by
      rw [← List.map_drop]
      obtain ⟨u, hu, hue⟩ := List.mem_map.mp (hP p hp)
      exact List.mem_map.mpr ⟨u, List.mem_of_mem_take hu, hue⟩
    rw [← heq] at h2
    exact List.disjoint_take_drop hdistinct (Nat.le_refl 5) h1 h2

/-- C13, evaluated on a users table of seven users: five students, two
professors, on different emails. -/
theorem seeds_use_disjoint_users_witness :
    ((exampleUsers 7).map emailOf).Nodup ∧
    (Students.rows (fun _ => exampleDraw) ⟨exampleUsers 7, [], []⟩).map emailOf =
      [JSVal.str "u0@smu.edu", JSVal.str "u1@smu.edu", JSVal.str "u2@smu.edu",
       JSVal.str "u3@smu.edu", JSVal.str "u4@smu.edu"] ∧
    (Professors.rows (fun _ => exampleDraw) ⟨exampleUsers 7, [], []⟩).map emailOf =
      [JSVal.str "u5@smu.edu", JSVal.str "u6@smu.edu"] ∧
    (∀ s ∈ Students.rows (fun _ => exampleDraw) ⟨exampleUsers 7, [], []⟩,
      ∀ p ∈ Professors.rows (fun _ => exampleDraw) ⟨exampleUsers 7, [], []⟩,
        emailOf s ≠ emailOf p) :=
  ⟨by decide, by decide, by decide,
   (seeds_use_disjoint_users (fun _ => exampleDraw) (fun _ => exampleDraw)
      ⟨exampleUsers 7, [], []⟩ (by decide)).2.2.2.2.2.2⟩

end Mar30

/-! The clear-db seed: claims -/

namespace Apr5

open Auth Db

/-- C14: the clear-db seed deletes all records from every table of the schema.
From any database state it succeeds and leaves the professors, students and
users tables empty; the users rows are deleted last, in a state where the
students and professors tables are already empty, so no users row is deleted
while a row still refers to its email. -/
theorem seed_clears_every_table (db : Database) :
    seed db = Except.ok ⟨[], [], []⟩ ∧
    ∃ db1 db2,
      knexDel Table.professors db = Except.ok db1 ∧
      knexDel Table.students db1 = Except.ok db2 ∧
      db1.users = db.users ∧ db2.users = db.users ∧
      db2.students = [] ∧ db2.professors = [] ∧
      db2.usersReferenced = false ∧
      knexDel Table.users db2 = Except.ok ⟨[], [], []⟩ := by
  have href : ({ users := db.users, students := [], professors := [] } : Database).usersReferenced
      = false := by
    simp [Database.usersReferenced]
  refine ⟨?_, { db with professors := [] }, { users := db.users, students := [], professors := [] },
    rfl, rfl, rfl, rfl, rfl, rfl, href, ?_⟩
  · simp [seed, knexDel, bind, Except.bind, Database.usersReferenced]
  · simp [knexDel, Database.usersReferenced]

end Apr5

/-! The app of lecture Mar 9: lemmas -/

namespace Mar9

open Auth (JSVal Row JSError Row.get)
open Express

theorem getStudents_answersWith500 : AnswersWith500 getStudents := by
  intro w request err h
  cases hc : w.connectToDatabase with
  | error e =>
    have he : e = err := by
      rcases h with h | ⟨sql, values, hm, _⟩
      · rw [hc] at h; injection h
      · simp [getStudents, Express.tryCatch, bind, Eff.andThen, emit, call, connectToDatabase,
          hc] at hm
    subst he
    simp [getStudents, Express.tryCatch, bind, Eff.andThen, emit, call, connectToDatabase, hc,
      responseEvents, responsesSent,
      errorBody]
  | ok u =>
    cases hq : w.DBQuery "SELECT * FROM student" [] with
    | error e =>
      have he : e = err := by
        rcases h with h | ⟨sql, values, hm, hans⟩
        · rw [hc] at h; cases h
        · simp [getStudents, Express.tryCatch, bind, Eff.andThen, emit, call, connectToDatabase,
            DBQuery, hc, hq] at hm
          rw [hm.1, hm.2, hq] at hans
          injection hans
      subst he
      simp [getStudents, Express.tryCatch, bind, Eff.andThen, emit, call, connectToDatabase,
        DBQuery, hc, hq, responseEvents, responsesSent,
      errorBody]
    | ok results =>
      exfalso
      rcases h with h | ⟨sql, values, hm, hans⟩
      · rw [hc] at h; cases h
      · cases hd : w.disconnect <;>
        · simp [getStudents, Express.tryCatch, bind, Eff.andThen, emit, call, connectToDatabase,
            DBQuery, disconnect, hc, hq, hd] at hm
          rw [hm.1, hm.2, hq] at hans
          cases hans

theorem getStudentById_answersWith500 : AnswersWith500 getStudentById := by
  intro w request err h
  cases hc : w.connectToDatabase with
  | error e =>
    have he : e = err := by
      rcases h with h | ⟨sql, values, hm, _⟩
      · rw [hc] at h; injection h
      · simp [getStudentById, Express.tryCatch, bind, Eff.andThen, emit, call, connectToDatabase,
          hc] at hm
    subst he
    simp [getStudentById, Express.tryCatch, bind, Eff.andThen, emit, call, connectToDatabase, hc,
      responseEvents, responsesSent,
      errorBody]
  | ok u =>
    cases hq : w.DBQuery "SELECT * FROM student WHERE id = ?" [Row.get request.params "id"] with
    | error e =>
      have he : e = err := by
        rcases h with h | ⟨sql, values, hm, hans⟩
        · rw [hc] at h; cases h
        · simp [getStudentById, Express.tryCatch, bind, Eff.andThen, emit, call, connectToDatabase,
            DBQuery, hc, hq] at hm
          rw [hm.1, hm.2, hq] at hans
          injection hans
      subst he
      simp [getStudentById, Express.tryCatch, bind, Eff.andThen, emit, call, connectToDatabase,
        DBQuery, hc, hq, responseEvents, responsesSent,
      errorBody]
    | ok results =>
      exfalso
      rcases h with h | ⟨sql, values, hm, hans⟩
      · rw [hc] at h; cases h
      · cases hd : w.disconnect <;>
        · simp [getStudentById, Express.tryCatch, bind, Eff.andThen, emit, call, connectToDatabase,
            DBQuery, disconnect, hc, hq, hd] at hm
          rw [hm.1, hm.2, hq] at hans
          cases hans

theorem deleteStudent_answersWith500 : AnswersWith500 deleteStudent := by
  intro w request err h
  cases hc : w.connectToDatabase with
  | error e =>
    have he : e = err := by
      rcases h with h | ⟨sql, values, hm, _⟩
      · rw [hc] at h; injection h
      · simp [deleteStudent, Express.tryCatch, bind, Eff.andThen, emit, call, connectToDatabase,
          hc] at hm
    subst he
    simp [deleteStudent, Express.tryCatch, bind, Eff.andThen, emit, call, connectToDatabase, hc,
      responseEvents, responsesSent,
      errorBody]
  | ok u =>
    cases hq : w.DBQuery "DELETE FROM student WHERE id = ?" [Row.get request.params "id"] with
    | error e =>
      have he : e = err := by
        rcases h with h | ⟨sql, values, hm, hans⟩
        · rw [hc] at h; cases h
        · simp [deleteStudent, Express.tryCatch, bind, Eff.andThen, emit, call, connectToDatabase,
            DBQuery, hc, hq] at hm
          rw [hm.1, hm.2, hq] at hans
          injection hans
      subst he
      simp [deleteStudent, Express.tryCatch, bind, Eff.andThen, emit, call, connectToDatabase,
        DBQuery, hc, hq, responseEvents, responsesSent,
      errorBody]
    | ok results =>
      exfalso
      rcases h with h | ⟨sql, values, hm, hans⟩
      · rw [hc] at h; cases h
      · cases hd : w.disconnect <;>
        · simp [deleteStudent, Express.tryCatch, bind, Eff.andThen, emit, call, connectToDatabase,
            DBQuery, disconnect, hc, hq, hd] at hm
          rw [hm.1, hm.2, hq] at hans
          cases hans

theorem getStudentsByName_answersWith500 : AnswersWith500 getStudentsByName := by
  intro w request err h
  cases hc : w.connectToDatabase with
  | error e =>
    have he : e = err := by
      rcases h with h | ⟨sql, values, hm, _⟩
      · rw [hc] at h; injection h
      · simp [getStudentsByName, Express.tryCatch, bind, pure, Eff.andThen, Eff.ret, emit, call, connectToDatabase, DBQuery,
          disconnect, readProperty, throwJs, hc] at hm
    subst he
    simp [getStudentsByName, Express.tryCatch, bind, pure, Eff.andThen, Eff.ret, emit, call, connectToDatabase, DBQuery,
          disconnect, readProperty, throwJs, hc, responseEvents, responsesSent,
      errorBody]
  | ok u =>
    cases ht : truthy (Row.get request.query "name") with
    | true =>
      cases hq : w.DBQuery "SELECT * FROM student WHERE name = ?" [Row.get request.query "name"] with
      | error e =>
        have he : e = err := by
          rcases h with h | ⟨sql, values, hm, hans⟩
          · rw [hc] at h; cases h
          · simp [getStudentsByName, Express.tryCatch, bind, pure, Eff.andThen, Eff.ret, emit, call, connectToDatabase, DBQuery,
            disconnect, readProperty, throwJs, hc, ht, hq] at hm
            rw [hm.1, hm.2, hq] at hans
            injection hans
        subst he
        simp [getStudentsByName, Express.tryCatch, bind, pure, Eff.andThen, Eff.ret, emit, call, connectToDatabase, DBQuery,
            disconnect, readProperty, throwJs, hc, ht, hq, responseEvents, responsesSent,
      errorBody]
      | ok results =>
        exfalso
        rcases h with h | ⟨sql, values, hm, hans⟩
        · rw [hc] at h; cases h
        · cases hd : w.disconnect <;>
          · simp [getStudentsByName, Express.tryCatch, bind, pure, Eff.andThen, Eff.ret, emit, call, connectToDatabase, DBQuery,
            disconnect, readProperty, throwJs, hc, ht, hq, hd] at hm
            rw [hm.1, hm.2, hq] at hans
            cases hans
    | false =>
      cases hq : w.DBQuery "SELECT * FROM student" [] with
      | error e =>
        have he : e = err := by
          rcases h with h | ⟨sql, values, hm, hans⟩
          · rw [hc] at h; cases h
          · simp [getStudentsByName, Express.tryCatch, bind, pure, Eff.andThen, Eff.ret, emit, call, connectToDatabase, DBQuery,
            disconnect, readProperty, throwJs, hc, ht, hq] at hm
            rw [hm.1, hm.2, hq] at hans
            injection hans
        subst he
        simp [getStudentsByName, Express.tryCatch, bind, pure, Eff.andThen, Eff.ret, emit, call, connectToDatabase, DBQuery,
            disconnect, readProperty, throwJs, hc, ht, hq, responseEvents, responsesSent,
      errorBody]
      | ok results =>
        exfalso
        rcases h with h | ⟨sql, values, hm, hans⟩
        · rw [hc] at h; cases h
        · cases hd : w.disconnect <;>
          · simp [getStudentsByName, Express.tryCatch, bind, pure, Eff.andThen, Eff.ret, emit, call, connectToDatabase, DBQuery,
            disconnect, readProperty, throwJs, hc, ht, hq, hd] at hm
            rw [hm.1, hm.2, hq] at hans
            cases hans

theorem postStudents_answersWith500 : AnswersWith500 postStudents := by
  intro w request err h
  cases hc : w.connectToDatabase with
  | error e =>
    have he : e = err := by
      rcases h with h | ⟨sql, values, hm, _⟩
      · rw [hc] at h; injection h
      · simp [postStudents, Express.tryCatch, bind, pure, Eff.andThen, Eff.ret, emit, call, connectToDatabase, DBQuery,
          disconnect, readProperty, throwJs, hc] at hm
    subst he
    simp [postStudents, Express.tryCatch, bind, pure, Eff.andThen, Eff.ret, emit, call, connectToDatabase, DBQuery,
          disconnect, readProperty, throwJs, hc, responseEvents, responsesSent,
      errorBody]
  | ok u =>
    cases hb : request.body with
    | none =>
      exfalso
      rcases h with h | ⟨sql, values, hm, hans⟩
      · rw [hc] at h; cases h
      · simp [postStudents, Express.tryCatch, bind, pure, Eff.andThen, Eff.ret, emit, call, connectToDatabase, DBQuery,
          disconnect, readProperty, throwJs, hc, hb] at hm
    | some payload =>
      cases hq : w.DBQuery "INSERT INTO student(name) VALUES (?)" [Row.get payload "name"] with
      | error e =>
        have he : e = err := by
          rcases h with h | ⟨sql, values, hm, hans⟩
          · rw [hc] at h; cases h
          · simp [postStudents, Express.tryCatch, bind, pure, Eff.andThen, Eff.ret, emit, call, connectToDatabase, DBQuery,
          disconnect, readProperty, throwJs, hc, hb, hq] at hm
            rw [hm.1, hm.2, hq] at hans
            injection hans
        subst he
        simp [postStudents, Express.tryCatch, bind, pure, Eff.andThen, Eff.ret, emit, call, connectToDatabase, DBQuery,
          disconnect, readProperty, throwJs, hc, hb, hq, responseEvents, responsesSent,
      errorBody]
      | ok results =>
        cases hq2 : w.DBQuery "SELECT * FROM student WHERE id = ?" [DBResult.get results "insertId"] with
        | error e =>
          have he : e = err := by
            rcases h with h | ⟨sql, values, hm, hans⟩
            · rw [hc] at h; cases h
            · simp [postStudents, Express.tryCatch, bind, pure, Eff.andThen, Eff.ret, emit, call, connectToDatabase, DBQuery,
          disconnect, readProperty, throwJs, hc, hb, hq, hq2] at hm
              rcases hm with hm | hm
              · rw [hm.1, hm.2, hq] at hans; cases hans
              · rw [hm.1, hm.2, hq2] at hans; injection hans
          subst he
          simp [postStudents, Express.tryCatch, bind, pure, Eff.andThen, Eff.ret, emit, call, connectToDatabase, DBQuery,
          disconnect, readProperty, throwJs, hc, hb, hq, hq2, responseEvents, responsesSent,
      errorBody]
        | ok record =>
          exfalso
          rcases h with h | ⟨sql, values, hm, hans⟩
          · rw [hc] at h; cases h
          · cases hd : w.disconnect <;>
            · simp [postStudents, Express.tryCatch, bind, pure, Eff.andThen, Eff.ret, emit, call, connectToDatabase, DBQuery,
          disconnect, readProperty, throwJs, hc, hb, hq, hq2, hd] at hm
              rcases hm with hm | hm
              · rw [hm.1, hm.2, hq] at hans; cases hans
              · rw [hm.1, hm.2, hq2] at hans; cases hans

theorem putStudent_answersWith500 : AnswersWith500 putStudent := by
  intro w request err h
  cases hc : w.connectToDatabase with
  | error e =>
    have he : e = err := by
      rcases h with h | ⟨sql, values, hm, _⟩
      · rw [hc] at h; injection h
      · simp [putStudent, Express.tryCatch, bind, pure, Eff.andThen, Eff.ret, emit, call, connectToDatabase, DBQuery,
          disconnect, readProperty, throwJs, hc] at hm
    subst he
    simp [putStudent, Express.tryCatch, bind, pure, Eff.andThen, Eff.ret, emit, call, connectToDatabase, DBQuery,
          disconnect, readProperty, throwJs, hc, responseEvents, responsesSent,
      errorBody]
  | ok u =>
    cases hb : request.body with
    | none =>
      exfalso
      rcases h with h | ⟨sql, values, hm, hans⟩
      · rw [hc] at h; cases h
      · simp [putStudent, Express.tryCatch, bind, pure, Eff.andThen, Eff.ret, emit, call, connectToDatabase, DBQuery,
          disconnect, readProperty, throwJs, hc, hb] at hm
    | some payload =>
      cases hq : w.DBQuery "UPDATE student SET name = ? WHERE id = ?" [Row.get payload "name", Row.get request.params "id"] with
      | error e =>
        have he : e = err := by
          rcases h with h | ⟨sql, values, hm, hans⟩
          · rw [hc] at h; cases h
          · simp [putStudent, Express.tryCatch, bind, pure, Eff.andThen, Eff.ret, emit, call, connectToDatabase, DBQuery,
          disconnect, readProperty, throwJs, hc, hb, hq] at hm
            rw [hm.1, hm.2, hq] at hans
            injection hans
        subst he
        simp [putStudent, Express.tryCatch, bind, pure, Eff.andThen, Eff.ret, emit, call, connectToDatabase, DBQuery,
          disconnect, readProperty, throwJs, hc, hb, hq, responseEvents, responsesSent,
      errorBody]
      | ok results =>
        cases hq2 : w.DBQuery "SELECT * FROM student WHERE id = ?" [Row.get request.params "id"] with
        | error e =>
          have he : e = err := by
            rcases h with h | ⟨sql, values, hm, hans⟩
            · rw [hc] at h; cases h
            · simp [putStudent, Express.tryCatch, bind, pure, Eff.andThen, Eff.ret, emit, call, connectToDatabase, DBQuery,
          disconnect, readProperty, throwJs, hc, hb, hq, hq2] at hm
              rcases hm with hm | hm
              · rw [hm.1, hm.2, hq] at hans; cases hans
              · rw [hm.1, hm.2, hq2] at hans; injection hans
          subst he
          simp [putStudent, Express.tryCatch, bind, pure, Eff.andThen, Eff.ret, emit, call, connectToDatabase, DBQuery,
          disconnect, readProperty, throwJs, hc, hb, hq, hq2, responseEvents, responsesSent,
      errorBody]
        | ok record =>
          exfalso
          rcases h with h | ⟨sql, values, hm, hans⟩
          · rw [hc] at h; cases h
          · cases hd : w.disconnect <;>
            · simp [putStudent, Express.tryCatch, bind, pure, Eff.andThen, Eff.ret, emit, call, connectToDatabase, DBQuery,
          disconnect, readProperty, throwJs, hc, hb, hq, hq2, hd] at hm
              rcases hm with hm | hm
              · rw [hm.1, hm.2, hq] at hans; cases hans
              · rw [hm.1, hm.2, hq2] at hans; cases hans

end Mar9

/-! The app of lecture Mar 9: claims -/

namespace Mar9

open Auth (JSVal Row JSError Row.get)
open Express

/-- Every `GET /students` request, whatever its query string, is handled by the
handler registered first; the handler with the name filter is never reached. -/
theorem app_get_students (w : World) (request : Request)
    (hmethod : request.method = "GET") (hpath : request.path = ["students"]) :
    app w request = getStudents w { request with params := [] } := by
  simp [app, stack, dispatch, matchPath, hmethod, hpath]

/-- C15, evaluated at the failing input: for `GET /students?name=Chris` on a
table with Chris and Dana the app answers with both students, through the
unfiltered query of the handler registered first; the handler with the name
filter, run by itself, would answer with Chris only. -/
theorem name_filter_is_shadowed :
    (app classWorld (getRequest ["students"] [("name", JSVal.str "Chris")])).trace =
      [Event.consoleLog "Initiating GET /students request",
       Event.connectToDatabase,
       Event.DBQuery "SELECT * FROM student" [],
       Event.disconnect,
       Event.json (Body.result (DBResult.rows [chris, dana]))] ∧
    (getStudentsByName classWorld
        (getRequest ["students"] [("name", JSVal.str "Chris")])).trace =
      [Event.consoleLog "Initiating GET /students request",
       Event.consoleLog "Request query arguments is an object containing:",
       Event.connectToDatabase,
       Event.DBQuery "SELECT * FROM student WHERE name = ?" [JSVal.str "Chris"],
       Event.disconnect,
       Event.json (Body.result (DBResult.rows [chris]))] := by
  constructor <;> decide

/-- C16: in every handler on `/students`, if connecting to the database throws
an error `err`, or a query the handler makes throws `err`, the handler catches
it and answers with status 500 and the body `{ message: err.message }`, sending
exactly one response. -/
theorem errors_answered_with_500 (handler : World → Request → Eff Unit)
    (hmem : handler ∈ crudHandlers) (w : World) (request : Request) (err : JSError)
    (hfail : w.connectToDatabase = Except.error err ∨
      ∃ sql values, Event.DBQuery sql values ∈ (handler w request).trace ∧
        w.DBQuery sql values = Except.error err) :
    responseEvents (handler w request).trace =
      [Event.status 500, Event.json (Body.object [("message", JSVal.str err.message)])] ∧
    responsesSent (handler w request).trace = 1 ∧
    (handler w request).outcome = Except.ok () := by
  simp only [crudHandlers, List.mem_cons, List.mem_singleton, List.not_mem_nil, or_false] at hmem
  rcases hmem with rfl | rfl | rfl | rfl | rfl | rfl
  · exact getStudents_answersWith500 w request err hfail
  · exact getStudentById_answersWith500 w request err hfail
  · exact getStudentsByName_answersWith500 w request err hfail
  · exact postStudents_answersWith500 w request err hfail
  · exact putStudent_answersWith500 w request err hfail
  · exact deleteStudent_answersWith500 w request err hfail

/-- C16, evaluated: a rejected query in `PUT /students/:id` and an unreachable
database in `GET /students` are both answered with 500 and the message. -/
theorem errors_answered_with_500_witness :
    (responseEvents (putStudent failingQueryWorld
        { method := "PUT", path := ["students", "3"], query := [],
          params := [("id", JSVal.str "3")], sent := none,
          body := some [("name", JSVal.str "Eve")] }).trace
      = [Event.status 500, Event.json (Body.object [("message", JSVal.str "ER_NO_SUCH_TABLE")])]) ∧
    (responseEvents (getStudents unreachableWorld (getRequest ["students"] [])).trace
      = [Event.status 500, Event.json (Body.object [("message", JSVal.str "connect ECONNREFUSED")])]) :=
  ⟨(errors_answered_with_500 putStudent (by simp [crudHandlers]) failingQueryWorld
      { method := "PUT", path := ["students", "3"], query := [],
        params := [("id", JSVal.str "3")], sent := none,
        body := some [("name", JSVal.str "Eve")] } ⟨"ER_NO_SUCH_TABLE"⟩
      (Or.inr ⟨"UPDATE student SET name = ? WHERE id = ?",
        [JSVal.str "Eve", JSVal.str "3"], by decide, rfl⟩)).1,
   (errors_answered_with_500 getStudents (by simp [crudHandlers]) unreachableWorld
      (getRequest ["students"] []) ⟨"connect ECONNREFUSED"⟩ (Or.inl rfl)).1⟩

/-- C17, evaluated at the failing input: in `GET /students/3` and in
`PUT /students/3` the connection is made and the query is rejected; the handler
goes to its `catch` block and answers 500, and `disconnect` is never called. -/
theorem query_failure_skips_disconnect :
    failingQueryWorld.connectToDatabase = Except.ok () ∧
    (app failingQueryWorld (getRequest ["students", "3"] [])).trace =
      [Event.consoleLog "Initiating GET /students/:id request",
       Event.consoleLog "Request params is an object containing:",
       Event.connectToDatabase,
       Event.DBQuery "SELECT * FROM student WHERE id = ?" [JSVal.str "3"],
       Event.consoleError "There was an error in GET /students/:id" ⟨"ER_NO_SUCH_TABLE"⟩,
       Event.status 500,
       Event.json (Body.object [("message", JSVal.str "ER_NO_SUCH_TABLE")])] ∧
    Event.disconnect ∉ (app failingQueryWorld (getRequest ["students", "3"] [])).trace ∧
    (app failingQueryWorld (putRequest ["students", "3"] [("name", JSVal.str "Eve")])).trace =
      [Event.consoleLog "Initiating PUT /students/:id request",
       Event.consoleLog "Request has a body / payload containing:",
       Event.consoleLog "Request has params containing:",
       Event.connectToDatabase,
       Event.DBQuery "UPDATE student SET name = ? WHERE id = ?" [JSVal.str "Eve", JSVal.str "3"],
       Event.consoleError "There was an error in PUT /students" ⟨"ER_NO_SUCH_TABLE"⟩,
       Event.status 500,
       Event.json (Body.object [("message", JSVal.str "ER_NO_SUCH_TABLE")])] ∧
    Event.disconnect ∉
      (app failingQueryWorld (putRequest ["students", "3"] [("name", JSVal.str "Eve")])).trace := by
  refine ⟨rfl, ?_, ?_, ?_, ?_⟩ <;> decide

end Mar9

/-! The app of lecture Mar 21: claims -/

namespace Mar21

open Auth (JSVal Row JSError Row.get)
open Express

theorem disconnects_createModelsMiddleware (w : World) (next : Eff Unit)
    (hc : w.connectToDatabase = Except.ok ()) :
    disconnects (createModelsMiddleware w next).trace = disconnects next.trace := by
  simp [createModelsMiddleware, disconnects, bind, Eff.andThen, emit, call, connectToDatabase,
    hc]

theorem disconnects_healthLayer (request : Request) (next : Eff Unit) :
    disconnects (healthLayer request next).trace = disconnects next.trace := by
  unfold healthLayer
  split <;> simp [health, disconnects, bind, Eff.andThen, emit]

theorem disconnects_studentsIndex (w : World) (next : Eff Unit) (rs : DBResult)
    (hq : w.DBQuery "SELECT * FROM student" [] = Except.ok rs) :
    disconnects (studentsIndex w next).trace = disconnects next.trace := by
  simp [studentsIndex, Student.fetchAllStudents, disconnects, bind, Eff.andThen, emit, call,
    DBQuery, hq]

theorem disconnects_studentsLayer (w : World) (request : Request) (next : Eff Unit)
    (rs : DBResult) (hq : w.DBQuery "SELECT * FROM student" [] = Except.ok rs) :
    disconnects (studentsLayer w request next).trace = disconnects next.trace := by
  unfold studentsLayer
  split
  · unfold studentRoutes
    split
    · exact disconnects_studentsIndex w next rs hq
    · rfl
  · rfl

theorem disconnects_disconnectMiddleware (w : World) :
    disconnects (disconnectFromDatababaseMiddleware w (emit Event.finalHandler)).trace = 1 := by
  cases hd : w.disconnect <;>
    simp [disconnectFromDatababaseMiddleware, disconnects, bind, Eff.andThen, emit, call,
      disconnect, hd]

/-- When the connection is made and the student query is not rejected,
`disconnect` is called exactly once, whatever the request. -/
theorem disconnects_once_of_query_ok (w : World) (request : Request) (rs : DBResult)
    (hc : w.connectToDatabase = Except.ok ())
    (hq : w.DBQuery "SELECT * FROM student" [] = Except.ok rs) :
    disconnects (app w request).trace = 1 := by
  unfold app
  rw [disconnects_createModelsMiddleware w _ hc, disconnects_healthLayer,
    disconnects_studentsLayer w request _ rs hq, disconnects_disconnectMiddleware]

/-- C18, evaluated at the failing input: for `GET /students` with the connection
made and the student query rejected, the chain stops in the route handler: no
response is sent, `disconnectFromDatababaseMiddleware` never runs and
`disconnect` is not called.  With the query answered, and for `GET /health` and
an unmatched path, `disconnect` is called once, as the last call before the
final handler. -/
theorem failed_student_query_skips_disconnect :
    rejectingWorld.connectToDatabase = Except.ok () ∧
    (app rejectingWorld (getRequest ["students"])).trace =
      [Event.consoleLog "Connecting to the database",
       Event.connectToDatabase,
       Event.DBQuery "SELECT * FROM student" []] ∧
    (app rejectingWorld (getRequest ["students"])).outcome =
      Except.error ⟨"ER_NO_SUCH_TABLE"⟩ ∧
    disconnects (app rejectingWorld (getRequest ["students"])).trace = 0 ∧
    responsesSent (app rejectingWorld (getRequest ["students"])).trace = 0 ∧
    (app healthyWorld (getRequest ["students"])).trace =
      [Event.consoleLog "Connecting to the database",
       Event.connectToDatabase,
       Event.DBQuery "SELECT * FROM student" [],
       Event.json (Body.result (DBResult.rows [])),
       Event.consoleLog "Disconnecting from the database",
       Event.disconnect,
       Event.finalHandler] ∧
    disconnects (app healthyWorld (getRequest ["health"])).trace = 1 ∧
    disconnects (app healthyWorld (getRequest ["nowhere"])).trace = 1 := by
  refine ⟨rfl, by decide, rfl, by decide, by decide, by decide, by decide, by decide⟩

end Mar21

/-! The seeds of lecture Apr 25: claims -/

namespace Apr25

open Auth (JSVal Row JSError Row.get)

theorem mapM_construct_usersModule (document : Row) (rest : List Row) :
    (document :: rest).mapM (construct usersModule "User") =
      Except.error ⟨"User is not a constructor"⟩ := by
  rw [List.mapM_cons]
  rfl

theorem randomUsers_succ (draws : Nat → Mar30.Draw) (n : Nat) :
    ∃ document rest, randomUsers draws (n + 1) = document :: rest := by
  cases h : randomUsers draws (n + 1) with
  | nil =>
    have hlen : (randomUsers draws (n + 1)).length = n + 1 := by simp [randomUsers]
    rw [h] at hlen
    cases hlen
  | cons document rest => exact ⟨document, rest, rfl⟩

/-- The users seed throws at its first `new User(user)` and changes nothing. -/
theorem Users.seed_throws (w : World) (draws : Nat → Mar30.Draw) (store : Store) :
    Users.seed w draws store = ⟨store, [], Except.error ⟨"User is not a constructor"⟩⟩ := by
  obtain ⟨document, rest, h⟩ := randomUsers_succ draws 99
  unfold Users.seed
  rw [h, mapM_construct_usersModule]

/-- C19, evaluated at the failing input: starting from a store with one stale
user, and even with a mongoose whose detached `deleteMany` empties the
collections, `runSeeds` rejects with `User is not a constructor`; no document is
saved and the user collection is left empty instead of holding 100 users.  For
every mongoose, generator and store `runSeeds` rejects without a single
`save`. -/
theorem runSeeds_never_populates :
    (runSeeds forgivingWorld (fun _ => Mar30.exampleDraw) staleStore).result =
      Except.error ⟨"User is not a constructor"⟩ ∧
    (runSeeds forgivingWorld (fun _ => Mar30.exampleDraw) staleStore).store =
      { users := [], students := [] } ∧
    (runSeeds forgivingWorld (fun _ => Mar30.exampleDraw) staleStore).trace =
      [Event.deleteMany "User", Event.deleteMany "Student"] ∧
    (∀ (w : World) (draws : Nat → Mar30.Draw) (store : Store),
      (∃ e, (runSeeds w draws store).result = Except.error e) ∧
      (∀ document, Event.save document ∉ (runSeeds w draws store).trace)) := by
  refine ⟨rfl, by decide, by decide, ?_⟩
  intro w draws store
  unfold runSeeds
  cases h1 : w.deleteMany usersModule "User" store with
  | error e =>
    simp [ClearDb.seed, h1]
  | ok store1 =>
    cases h2 : w.deleteMany studentsModule "Student" store1 with
    | error e => simp [ClearDb.seed, h1, h2]
    | ok store2 => simp [ClearDb.seed, h1, h2, Users.seed_throws]

end Apr25

/-! Functions passed to functions: claims -/

namespace Feb23

theorem applyLoop_eq_forEachFrom {σ α : Type} (arrayOf : σ → List α) (func : α → σ → σ)
    (hfixed : ∀ x t, arrayOf (func x t) = arrayOf t) :
    ∀ (remaining i : Nat) (s : σ) (calls : List α) (fuel : Nat),
      i + remaining = (arrayOf s).length → remaining < fuel →
      applyLoop arrayOf func fuel i s calls =
        some (forEachFrom arrayOf func remaining i s calls) ∧
      (forEachFrom arrayOf func remaining i s calls).2 = calls ++ (arrayOf s).drop i := by
  intro remaining
  induction remaining with
  | zero =>
    intro i s calls fuel hi hfuel
    obtain ⟨fuel1, rfl⟩ : ∃ k, fuel = k + 1 := ⟨fuel - 1, by omega⟩
    have hnot : ¬ i < (arrayOf s).length := by omega
    have hdrop : (arrayOf s).drop i = [] := List.drop_eq_nil_of_le (by omega)
    simp [applyLoop, forEachFrom, hnot, hdrop]
  | succ m ih =>
    intro i s calls fuel hi hfuel
    obtain ⟨fuel1, rfl⟩ : ∃ k, fuel = k + 1 := ⟨fuel - 1, by omega⟩
    have hlt : i < (arrayOf s).length := by omega
    have hnext : i + 1 + m = (arrayOf (func ((arrayOf s).get ⟨i, hlt⟩) s)).length := by
      rw [hfixed]; omega
    obtain ⟨h1, h2⟩ := ih (i + 1) (func ((arrayOf s).get ⟨i, hlt⟩) s)
      (calls ++ [(arrayOf s).get ⟨i, hlt⟩]) fuel1 hnext (by omega)
    have hdrop : (arrayOf s).drop i = (arrayOf s).get ⟨i, hlt⟩ :: (arrayOf s).drop (i + 1) := by
      simp
    constructor
    · simp only [applyLoop, forEachFrom, hlt, dite_true]
      exact h1
    · simp only [forEachFrom, hlt, dite_true]
      rw [h2, hfixed, hdrop]
      simp

/-- C20, the claim as stated fails: for the array `[1, 2]` and a callback that
pushes onto the array, `applyFunctionToArray` calls the callback four times (the
two pushed elements are visited too), while `forEach` calls it twice. -/
theorem applyFunctionToArray_visits_pushed_elements :
    applyFunctionToArray id pushUpToFour 10 [1, 2] = some ([1, 2, 1, 2], [1, 2, 1, 2]) ∧
    forEachSpec id pushUpToFour [1, 2] = ([1, 2, 1, 2], [1, 2]) := by
  constructor <;> decide

/-- C20, amended: for every array without holes and every `func` that leaves
the array as it is, `applyFunctionToArray(array, func)` returns (it needs one
round more than the array has elements) and does what `array.forEach(func)`
does: `func` is called exactly once per element, in increasing index order,
with the element as argument, and not at all for the empty array. -/
theorem applyFunctionToArray_eq_forEach {σ α : Type} (arrayOf : σ → List α)
    (func : α → σ → σ) (s : σ) (fuel : Nat)
    (hfixed : ∀ x t, arrayOf (func x t) = arrayOf t)
    (hfuel : (arrayOf s).length < fuel) :
    applyFunctionToArray arrayOf func fuel s = some (forEachSpec arrayOf func s) ∧
    (forEachSpec arrayOf func s).2 = arrayOf s ∧
    (arrayOf s = [] → (forEachSpec arrayOf func s).2 = []) := by
  obtain ⟨h1, h2⟩ := applyLoop_eq_forEachFrom arrayOf func hfixed (arrayOf s).length 0 s []
    fuel (by simp) hfuel
  have h3 : (forEachSpec arrayOf func s).2 = arrayOf s := by
    unfold forEachSpec
    rw [h2]
    simp
  refine ⟨h1, h3, ?_⟩
  intro hempty
  rw [h3, hempty]

/-- C20 amended, evaluated on a three-element array with a callback that counts
its calls: three calls, one per element, in order. -/
theorem applyFunctionToArray_eq_forEach_witness :
    applyFunctionToArray Prod.fst countCalls 4 (["Christian", "Ayala", "1234"], 0) =
      some ((["Christian", "Ayala", "1234"], 3), ["Christian", "Ayala", "1234"]) ∧
    (forEachSpec Prod.fst countCalls (["Christian", "Ayala", "1234"], 0)).2 =
      ["Christian", "Ayala", "1234"] :=
  have h := applyFunctionToArray_eq_forEach Prod.fst countCalls
    (["Christian", "Ayala", "1234"], 0) 4 (fun _ _ => rfl) (by decide)
  ⟨h.1, h.2.1⟩

end Feb23

/-! First row wins -/

namespace Auth

theorem claimsPayload_take_one (students : List Row) :
    claimsPayload (students.take 1) = claimsPayload students := by
  cases students with
  | nil => rfl
  | cons profile more => rfl

/-- C21: first row wins on store results.  Let two stores answer alike except
that, for the email in question, one returns the credential records
`user :: rest` and the other only `[user]`.  Then `authenticateUser` has the
same outcome on both.  If moreover one returns the profile records `students`
and the other only the first of them, the claims set built from either list is
the same, `authenticateStudent` calls `jwt.sign` with the same arguments on both
and has the same outcome. -/
theorem first_row_wins (w w1 : World) (email password : String) (user : Row) (rest : List Row)
    (hcompare : w1.bcryptCompare = w.bcryptCompare)
    (hsign : w1.jwtSign = w.jwtSign)
    (husers : w.knexWhere USER_TABLE email = Except.ok (user :: rest))
    (husers1 : w1.knexWhere USER_TABLE email = Except.ok [user]) :
    (User.authenticateUser w email password).outcome =
      (User.authenticateUser w1 email password).outcome ∧
    (∀ students, w.knexWhere STUDENTS_TABLE email = Except.ok students →
      w1.knexWhere STUDENTS_TABLE email = Except.ok (students.take 1) →
      claimsPayload (students.take 1) = claimsPayload students ∧
      (∀ payload secret options,
        Event.jwtSign payload secret options ∈ (authenticateStudent w email password).trace ↔
        Event.jwtSign payload secret options ∈ (authenticateStudent w1 email password).trace) ∧
      (authenticateStudent w email password).outcome =
        (authenticateStudent w1 email password).outcome) := by
  have hcmp1 : w1.bcryptCompare password (Row.get user "password") =
      w.bcryptCompare password (Row.get user "password") := by rw [hcompare]
  cases hc : w.bcryptCompare password (Row.get user "password") with
  | error e =>
    have hu := authenticateUser_compare_throws w email password user rest e husers hc
    have hu1 := authenticateUser_compare_throws w1 email password user [] e husers1
      (by rw [hcmp1, hc])
    refine ⟨by rw [hu, hu1], ?_⟩
    intro students _ _
    have hs := authenticateStudent_user_throws w email password e (by rw [hu])
    have hs1 := authenticateStudent_user_throws w1 email password e (by rw [hu1])
    rw [hu] at hs
    rw [hu1] at hs1
    refine ⟨claimsPayload_take_one students, ?_, by rw [hs, hs1]⟩
    intro payload secret options
    rw [hs, hs1]
    simp [userTrace]
  | ok valid =>
    have hu := authenticateUser_compared w email password user rest valid husers hc
    have hu1 := authenticateUser_compared w1 email password user [] valid husers1
      (by rw [hcmp1, hc])
    refine ⟨by rw [hu, hu1], ?_⟩
    intro students hst hst1
    cases valid with
    | false =>
      have hs := authenticateStudent_user_null w email password (by rw [hu]; rfl)
      have hs1 := authenticateStudent_user_null w1 email password (by rw [hu1]; rfl)
      rw [hu] at hs
      rw [hu1] at hs1
      refine ⟨claimsPayload_take_one students, ?_, by rw [hs, hs1]⟩
      intro payload secret options
      rw [hs, hs1]
      simp [userTrace]
    | true =>
      have hs := authenticateStudent_signs w email password _ students
        (by rw [hu]; rfl) hst
      have hs1 := authenticateStudent_signs w1 email password _ (students.take 1)
        (by rw [hu1]; rfl) hst1
      rw [hu] at hs
      rw [hu1] at hs1
      rw [claimsPayload_take_one, hsign] at hs1
      refine ⟨claimsPayload_take_one students, ?_, by rw [hs, hs1]⟩
      intro payload secret options
      rw [hs, hs1]
      simp [userTrace, studentTrace, claimsPayload_take_one]

/-- C21, evaluated: a store with two credential records and two profile records
under the email of Ann gives the same results as the store holding only the
first of each. -/
theorem first_row_wins_witness :
    (tableWorld [annUser, annTwin] [annStudent, annStudentTwin]).knexWhere USER_TABLE
        "ann@smu.edu" = Except.ok [annUser, annTwin] ∧
    (tableWorld [annUser, annTwin] [annStudent, annStudentTwin]).knexWhere STUDENTS_TABLE
        "ann@smu.edu" = Except.ok [annStudent, annStudentTwin] ∧
    (User.authenticateUser (tableWorld [annUser, annTwin] [annStudent, annStudentTwin])
        "ann@smu.edu" "pw").outcome =
      (User.authenticateUser (tableWorld [annUser] [annStudent]) "ann@smu.edu" "pw").outcome ∧
    (authenticateStudent (tableWorld [annUser, annTwin] [annStudent, annStudentTwin])
        "ann@smu.edu" "pw").outcome =
      (authenticateStudent (tableWorld [annUser] [annStudent]) "ann@smu.edu" "pw").outcome :=
  have h := first_row_wins (tableWorld [annUser, annTwin] [annStudent, annStudentTwin])
    (tableWorld [annUser] [annStudent]) "ann@smu.edu" "pw" annUser [annTwin] rfl rfl rfl rfl
  ⟨rfl, rfl, h.1, (h.2 [annStudent, annStudentTwin] rfl rfl).2.2⟩

end Auth
